/-
  Verification of the kx-scheduler-services scheduling backend.

  This file gives a shallow embedding, in Lean 4, of the parts of the
  TypeScript sources that the specification claims talk about:

  * src/utils/rrule-utils.ts   (timezone conversion, recurrence expansion,
                                session materialization, RRULE validation)
  * src/utils/geo-utils.ts     (check-in time-window validation)
  * src/services/sessions-service.ts        (session list query)
  * src/services/bookings-service.ts        (transactional booking create / cancel)
  * src/services/attendance-service.ts      (GPS check-in, admin override)
  * src/events/booking-events-handler.ts    (event-driven booking create)
  * src/services/programs-service.ts, locations-service.ts,
    schedules-service.ts, schedule-exceptions-service.ts (PATCH merge logic)

  Conventions of the embedding:
  * absolute instants and "naive" datetimes are `Int` seconds since the Unix
    epoch (JavaScript `Date` millisecond values; every value handled by the
    claims is on a whole second, so seconds lose nothing except in the
    check-in validator, which is modelled in milliseconds);
  * an IANA timezone string is modelled by the data type `Timezone`, whose
    interpretation `Timezone.offAt` gives the zone's UTC offset (seconds) at
    a given instant, exactly the information `Date.toLocaleString` exposes;
  * ISO datetime strings such as "2025-01-06T07:00:00" are modelled by their
    parsed components (`DateTimeStr`), which is what the source's regex
    extractors read off them;
  * the DynamoDB document store is modelled by in-memory lists of rows, and
    `TransactWriteCommand` by an all-or-nothing conditional state update.
-/
import Mathlib

namespace KxSched

/-! ## Calendar arithmetic

Days-since-epoch to and from civil (year, month, day) triples, following the
standard civil-from-days algorithm used by JavaScript Date's internal
calendar.  `weekdayOf` numbers weekdays the way the rrule library does
(MO = 0 … SU = 6). -/

/-- Days since 1970-01-01 of a civil date (proleptic Gregorian). -/
def daysFromCivil (y : Int) (m d : Nat) : Int :=
  let yAdj : Int := if m ≤ 2 then y - 1 else y
  let era : Int := Int.fdiv yAdj 400
  let yoe : Nat := (yAdj - era * 400).toNat
  let mp : Nat := if m > 2 then m - 3 else m + 9
  let doy : Nat := (153 * mp + 2) / 5 + d - 1
  let doe : Nat := yoe * 365 + yoe / 4 - yoe / 100 + doy
  era * 146097 + (doe : Int) - 719468

/-- Civil (year, month, day) of a days-since-epoch count. -/
def civilFromDays (z0 : Int) : Int × Nat × Nat :=
  let z : Int := z0 + 719468
  let era : Int := Int.fdiv z 146097
  let doe : Nat := (z - era * 146097).toNat
  let yoe : Nat := (doe - doe / 1460 + doe / 36524 - doe / 146096) / 365
  let doy : Nat := doe - (365 * yoe + yoe / 4 - yoe / 100)
  let mp : Nat := (5 * doy + 2) / 153
  let d : Nat := doy - (153 * mp + 2) / 5 + 1
  let m : Nat := if mp < 10 then mp + 3 else mp - 9
  let y : Int := (yoe : Int) + era * 400
  (if m ≤ 2 then y + 1 else y, m, d)

/-- Weekday of a days-since-epoch count, numbered as in the rrule library:
MO = 0, TU = 1, WE = 2, TH = 3, FR = 4, SA = 5, SU = 6. -/
def weekdayOf (day : Int) : Int :=
  Int.emod (day + 3) 7

/-! ## Decimal formatting (the model of JavaScript number → string padding) -/

/-- One decimal digit as a character. -/
def digitChar (n : Nat) : Char :=
  match n with
  | 0 => '0'
  | 1 => '1'
  | 2 => '2'
  | 3 => '3'
  | 4 => '4'
  | 5 => '5'
  | 6 => '6'
  | 7 => '7'
  | 8 => '8'
  | _ => '9'

/-- Decimal digits of a number, most significant first (fuel-guarded). -/
def natDigitsAux : Nat → Nat → List Char
  | 0, _ => []
  | fuel + 1, n =>
      if n < 10 then [digitChar n]
      else natDigitsAux fuel (n / 10) ++ [digitChar (n % 10)]

/-- Decimal digits of a number, most significant first. -/
def natDigits (n : Nat) : List Char :=
  natDigitsAux (n + 1) n

/-- Model of String(n).padStart(2, '0'). -/
def pad2 (n : Nat) : List Char :=
  if n < 10 then '0' :: natDigits n else natDigits n

/-- Model of four-digit year rendering. -/
def pad4 (n : Nat) : List Char :=
  List.replicate (4 - (natDigits n).length) '0' ++ natDigits n

/-- Render a civil date as a "YYYY-MM-DD" string. -/
def formatCivil (y : Int) (m d : Nat) : String :=
  ⟨pad4 y.toNat ++ '-' :: (pad2 m ++ '-' :: pad2 d)⟩

/-- The "YYYY-MM-DD" string of an instant's UTC calendar date.  This is the
model of reading `getUTCFullYear`/`getUTCMonth`/`getUTCDate` off a JS Date
and padding the parts, as the session generator does for naive datetimes. -/
def formatInstantDateUTC (t : Int) : String :=
  let c := civilFromDays (Int.fdiv t 86400)
  formatCivil c.1 c.2.1 c.2.2

/-! ## Timezones

An IANA zone name such as "America/New_York" is consumed by the source only
through the platform formatter (`toLocaleString` with a `timeZone`), i.e.
through the zone's UTC-offset function.  `Timezone` is the data of such an
offset function: either a fixed offset, or a standard offset together with a
DST offset and the list of UTC intervals during which DST is in force. -/

/-- A timezone as the data of its UTC-offset behaviour. -/
inductive Timezone where
  | fixedOffset (offsetSeconds : Int)
  | stdWithDst (stdSeconds dstSeconds : Int) (dstIntervals : List (Int × Int))
deriving DecidableEq

/-- UTC offset (seconds to add to a UTC instant to obtain local wall-clock
seconds) of a zone at a given instant. -/
def Timezone.offAt : Timezone → Int → Int
  | .fixedOffset o, _ => o
  | .stdWithDst std dst ivs, t =>
      if ivs.any (fun iv => decide (iv.1 ≤ t) && decide (t < iv.2)) then dst else std

/-- Instant at which US DST starts in 2025 (2025-03-09T07:00:00Z). -/
def dstStart2025 : Int := daysFromCivil 2025 3 9 * 86400 + 7 * 3600

/-- Instant at which US DST ends in 2025 (2025-11-02T06:00:00Z). -/
def dstEnd2025 : Int := daysFromCivil 2025 11 2 * 86400 + 6 * 3600

/-- America/New_York, with its 2025 DST window (EST = UTC-5, EDT = UTC-4).
All instants exercised by the claims lie in 2025. -/
def americaNewYork2025 : Timezone :=
  .stdWithDst (-18000) (-14400) [(dstStart2025, dstEnd2025)]

/-! ## ISO datetime strings

Strings such as "2025-01-06T07:00:00", "…Z" or "…-05:00" are modelled by
their parsed components.  The source reads such strings only through the
regexes of `extractLocalDateComponents` / `extractLocalTimeComponents`
(which take the literal components and ignore any suffix) and through
`new Date(...)` / `parseLocalDateTime` (which honour the suffix). -/

/-- Timezone suffix of an ISO datetime string. -/
inductive TzSuffix where
  | noSuffix
  | zulu
  | utcOffset (minutes : Int)
deriving DecidableEq

/-- Parsed form of an ISO "YYYY-MM-DDTHH:MM:SS[suffix]" string. -/
structure DateTimeStr where
  year : Int
  month : Nat
  day : Nat
  hour : Nat
  minute : Nat
  second : Nat
  suffix : TzSuffix := .noSuffix
deriving DecidableEq

/-- The instant whose UTC calendar components equal the string's literal
components; i.e. the value of `Date.UTC(year, month-1, day, h, m, s)`.  The
suffix is ignored, exactly as the source's component extractors ignore it. -/
def naiveSecondsOf (dt : DateTimeStr) : Int :=
  daysFromCivil dt.year dt.month dt.day * 86400
    + (dt.hour * 3600 + dt.minute * 60 + dt.second : Nat)

/-- Model of `parseLocalDateTime(localDateTime, timezone)` from
src/utils/rrule-utils.ts.  A Z suffix or explicit offset parses as an
absolute instant; a suffix-free string is interpreted in the given zone by
probing the zone's offset at the components-read-as-UTC instant (`asUtc`),
which is exactly what the source's `toLocaleString` subtraction computes. -/
def parseLocalDateTime (dt : DateTimeStr) (tz : Timezone) : Int :=
  match dt.suffix with
  | .zulu => naiveSecondsOf dt
  | .utcOffset m => naiveSecondsOf dt - m * 60
  | .noSuffix =>
      let asUtc := naiveSecondsOf dt
      asUtc - tz.offAt asUtc

/-- Model of `convertUtcToNaiveLocal(utcDate, timezone)`: the naive datetime
whose components are the zone's wall clock at `t`. -/
def convertUtcToNaiveLocal (t : Int) (tz : Timezone) : Int :=
  t + tz.offAt t

/-- Model of `convertNaiveLocalToUtc(naiveDate, timezone)`.  The source
rebuilds the suffix-free ISO string from the naive components and feeds it to
`parseLocalDateTime`; since components-to-seconds-to-components is the
identity, the composite is `n - offAt n`. -/
def convertNaiveLocalToUtc (n : Int) (tz : Timezone) : Int :=
  n - tz.offAt n

/-- Model of `formatDateLocal(date, timezone)` (toLocaleDateString 'en-CA'):
the zone-local "YYYY-MM-DD" of an instant. -/
def formatDateLocal (t : Int) (tz : Timezone) : String :=
  formatInstantDateUTC (t + tz.offAt t)

end KxSched

namespace KxSched

example : daysFromCivil 2025 1 6 = 20094 := by decide
example : daysFromCivil 1970 1 1 = 0 := by decide
example : weekdayOf 20094 = 0 := by decide
example : civilFromDays 20094 = (2025, 1, 6) := by decide
example : formatInstantDateUTC (20094 * 86400) = "2025-01-06" := by decide
example : dstStart2025 = 1741503600 := by decide
example : dstEnd2025 = 1762063200 := by decide
example : americaNewYork2025.offAt 1736121600 = -18000 := by decide

end KxSched

namespace KxSched

/-! ## Domain model (src/domain/models.ts)

The `Schedule`, `ScheduleException` and `Session` interfaces, restricted to
the fields the claimed behaviour reads.  The source field `end` is a Lean
keyword and is named `endTime` here. -/

/-- Host reference as in the domain model. -/
structure HostRef where
  id : String
  type : String
  role : Option String := none
deriving DecidableEq

/-- Frequency constants of the rrule library. -/
inductive RFreq where
  | yearly
  | monthly
  | weekly
  | daily
  | hourly
  | minutely
  | secondly
deriving DecidableEq

/-- Parsed recurrence rule, as produced by the rrule library from an RRULE
string.  The claims only ever expand rules of the repository's supported
profile at the default interval, so the expansion model below covers
FREQ=DAILY and FREQ=WEEKLY;BYDAY=… with INTERVAL=1 and no COUNT/UNTIL;
`byday` holds rrule weekday numbers (MO = 0 … SU = 6). -/
structure RRuleParsed where
  freq : RFreq
  byday : List Int := []
deriving DecidableEq

/-- Schedule row (src/domain/models.ts `Schedule`). -/
structure Schedule where
  tenantId : String
  scheduleId : String
  type : String
  programId : Option String := none
  start : DateTimeStr
  endTime : DateTimeStr
  timezone : Timezone
  isRecurring : Bool
  rrule : Option RRuleParsed := none
  baseCapacity : Option Nat := none
  hosts : Option (List HostRef) := none
  locationId : Option String := none
  tags : Option (List String) := none
deriving DecidableEq

/-- Schedule exception row (src/domain/models.ts `ScheduleException`). -/
structure ScheduleException where
  tenantId : String
  scheduleId : String
  occurrenceDate : String
  type : String
  overrideStart : Option DateTimeStr := none
  overrideEnd : Option DateTimeStr := none
  overrideCapacity : Option Nat := none
  overrideHosts : Option (List HostRef) := none
  overrideLocationId : Option String := none
deriving DecidableEq

/-- Counters carried by a stored SessionSummary, as read by the session
generator (`summary?.bookedCount ?? 0`, `summary?.waitlistCount ?? 0`). -/
structure SummaryInfo where
  bookedCount : Nat
  waitlistCount : Nat
deriving DecidableEq

/-- Virtual session (src/domain/models.ts `Session`).  `start` and `endTime`
are instants; the source stores their `toISOString()` rendering. -/
structure Session where
  tenantId : String
  sessionId : String
  scheduleId : String
  programId : Option String
  type : String
  date : String
  start : Int
  endTime : Int
  timezone : Timezone
  hosts : Option (List HostRef)
  locationId : Option String
  tags : Option (List String)
  capacity : Option Nat
  bookedCount : Nat
  waitlistCount : Nat
deriving DecidableEq

/-! ## Session id helpers (src/utils/rrule-utils.ts) -/

/-- Model of `generateSessionId(scheduleId, date)`. -/
def generateSessionId (scheduleId date : String) : String :=
  scheduleId ++ "#" ++ date

/-- Split a character list at every occurrence of a separator character,
as JavaScript String.split does. -/
def splitCharAux (c : Char) : List Char → List Char → List (List Char)
  | [], acc => [acc.reverse]
  | x :: xs, acc =>
      if x = c then acc.reverse :: splitCharAux c xs []
      else splitCharAux c xs (x :: acc)

/-- All segments of a character list split at a separator. -/
def splitChar (c : Char) (s : List Char) : List (List Char) :=
  splitCharAux c s []

/-- Model of `parseSessionId(sessionId)`: `sessionId.split('#')` and take the
first two segments.  A missing second segment is JavaScript `undefined`;
the model renders it as the empty string (no claim exercises that case). -/
def parseSessionId (sessionId : String) : String × String :=
  let segs := splitChar '#' sessionId.data
  (⟨segs.getD 0 []⟩, ⟨segs.getD 1 []⟩)

/-! ## Recurrence expansion (model of the rrule library) -/

/-- Model of `rrulestr(rrule, dtstart).between(a, b, true)` for the profile
the repository expands: occurrences are every day matching the frequency
pattern, at `dtstart`'s time of day, never before `dtstart`, and the bounds
are inclusive. -/
def rruleBetween (r : RRuleParsed) (dtstart a b : Int) : List Int :=
  let tod := Int.emod dtstart 86400
  let d0 := Int.fdiv dtstart 86400
  let dEnd := Int.fdiv b 86400
  if dEnd < d0 then []
  else
    (List.range (dEnd - d0 + 1).toNat).filterMap (fun i =>
      let day := d0 + (i : Int)
      let t := day * 86400 + tod
      let dayOk :=
        match r.freq with
        | .daily => true
        | .weekly => r.byday.contains (weekdayOf day)
        | _ => false
      if dayOk && decide (dtstart ≤ t) && decide (a ≤ t) && decide (t ≤ b)
      then some t else none)

/-! ## Session materialization (`generateSessions`, src/utils/rrule-utils.ts) -/

/-- Options record of `generateSessions` (`GenerateSessionsOptions`). -/
structure GenOptions where
  rangeStart : Int
  rangeEnd : Int
  exceptions : List ScheduleException := []
  summaries : List (String × SummaryInfo) := []
deriving DecidableEq

/-- The exception map lookup: the source inserts exceptions into a `Map`
keyed by `occurrenceDate` in list order, so the last one for a date wins. -/
def exceptionFor (exceptions : List ScheduleException) (dateStr : String) :
    Option ScheduleException :=
  exceptions.reverse.find? (fun e => e.occurrenceDate == dateStr)

/-- The naive occurrence list computed by `generateSessions`: the single
naive dtstart for a non-recurring schedule whose absolute start falls in the
absolute range, or the rrule expansion between the zone-converted naive
bounds for a recurring one. -/
def naiveOccurrencesOf (schedule : Schedule) (o : GenOptions) : List Int :=
  let startDateUtc := parseLocalDateTime schedule.start schedule.timezone
  let naiveDtstart := naiveSecondsOf schedule.start
  if !schedule.isRecurring || schedule.rrule.isNone then
    if decide (o.rangeStart ≤ startDateUtc) && decide (startDateUtc ≤ o.rangeEnd)
    then [naiveDtstart] else []
  else
    match schedule.rrule with
    | some r =>
        rruleBetween r naiveDtstart
          (convertUtcToNaiveLocal o.rangeStart schedule.timezone)
          (convertUtcToNaiveLocal o.rangeEnd schedule.timezone)
    | none => []

/-- Body of the per-occurrence loop of `generateSessions`: skip a CANCELLED
date, apply an OVERRIDE's fields (`overrideStart`/`overrideEnd` parsed in
the schedule's zone, capacity by `??`, hosts/location by `||`), otherwise
convert the naive occurrence back to an absolute start and add the template
duration. -/
def sessionOfOccurrence (schedule : Schedule) (exceptions : List ScheduleException)
    (durationS : Int) (summaries : List (String × SummaryInfo)) (naive : Int) :
    Option Session :=
  let dateStr := formatInstantDateUTC naive
  let exc := exceptionFor exceptions dateStr
  if exc.map (fun e => e.type) = some "CANCELLED" then none
  else
    let ov := exc.map (fun e => e.type) = some "OVERRIDE"
    let sessionStart : Int :=
      if ov then
        match exc.bind (fun e => e.overrideStart) with
        | some s => parseLocalDateTime s schedule.timezone
        | none => convertNaiveLocalToUtc naive schedule.timezone
      else convertNaiveLocalToUtc naive schedule.timezone
    let sessionEnd : Int :=
      if ov then
        match exc.bind (fun e => e.overrideEnd) with
        | some s => parseLocalDateTime s schedule.timezone
        | none => sessionStart + durationS
      else sessionStart + durationS
    let sessionHosts : Option (List HostRef) :=
      if ov then
        match exc.bind (fun e => e.overrideHosts) with
        | some h => some h
        | none => schedule.hosts
      else schedule.hosts
    let sessionLocationId : Option String :=
      if ov then
        match exc.bind (fun e => e.overrideLocationId) with
        | some l => some l
        | none => schedule.locationId
      else schedule.locationId
    let sessionCapacity : Option Nat :=
      if ov then
        match exc.bind (fun e => e.overrideCapacity) with
        | some c => some c
        | none => schedule.baseCapacity
      else schedule.baseCapacity
    let sessionId := generateSessionId schedule.scheduleId dateStr
    let summary := (summaries.find? (fun kv => kv.1 == sessionId)).map (fun kv => kv.2)
    some
      { tenantId := schedule.tenantId
        sessionId := sessionId
        scheduleId := schedule.scheduleId
        programId := schedule.programId
        type := schedule.type
        date := dateStr
        start := sessionStart
        endTime := sessionEnd
        timezone := schedule.timezone
        hosts := sessionHosts
        locationId := sessionLocationId
        tags := schedule.tags
        capacity := sessionCapacity
        bookedCount := (summary.map (fun s => s.bookedCount)).getD 0
        waitlistCount := (summary.map (fun s => s.waitlistCount)).getD 0 }

/-- The template duration, computed once in absolute time
(`endDateUtc - startDateUtc`). -/
def durationSecondsOf (schedule : Schedule) : Int :=
  parseLocalDateTime schedule.endTime schedule.timezone
    - parseLocalDateTime schedule.start schedule.timezone

/-- Model of `generateSessions(schedule, options)`. -/
def generateSessions (schedule : Schedule) (o : GenOptions) : List Session :=
  (naiveOccurrencesOf schedule o).filterMap
    (sessionOfOccurrence schedule o.exceptions (durationSecondsOf schedule) o.summaries)

end KxSched

namespace KxSched

/-! ## Session Reader (src/services/sessions-service.ts, GET with a range)

The service turns the query parameters into the absolute range
`[startDate + "T00:00:00Z", endDate + "T23:59:59Z"]`, rejects ranges longer
than 90 days, fetches the tenant's schedules (optionally narrowed by
programId), fetches each schedule's exceptions whose `occurrenceDate` lies
lexicographically between the two date strings, materializes sessions with
`generateSessions`, merges stored summary counters, applies the remaining
filters and sorts by start instant.  Query dates are modelled already parsed
(`Ymd`); the service's unparseable-date branch is therefore not reachable in
the model. -/

/-- A "YYYY-MM-DD" query parameter, parsed. -/
structure Ymd where
  year : Int
  month : Nat
  day : Nat
deriving DecidableEq

/-- "YYYY-MM-DD" rendering of a query date. -/
def ymdString (d : Ymd) : String :=
  formatCivil d.year d.month d.day

/-- Model of `new Date(params.startDate + "T00:00:00Z")`. -/
def queryRangeStart (d : Ymd) : Int :=
  daysFromCivil d.year d.month d.day * 86400

/-- Model of `new Date(params.endDate + "T23:59:59Z")`. -/
def queryRangeEnd (d : Ymd) : Int :=
  daysFromCivil d.year d.month d.day * 86400 + 86399

/-- Result of the sessions GET handler. -/
inductive QueryResult where
  | ok (sessions : List Session)
  | err (status : Nat) (msg : String)
deriving DecidableEq

/-- Insert a session into a list sorted by ascending start instant. -/
def insertByStart (s : Session) : List Session → List Session
  | [] => [s]
  | x :: xs =>
      if decide (x.start < s.start) then x :: insertByStart s xs else s :: x :: xs

/-- Stable sort by ascending start instant
(`filtered.sort((a, b) => startOf a - startOf b)`). -/
def sortByStart (l : List Session) : List Session :=
  l.foldr insertByStart []

/-- Optional query filters of the sessions GET handler. -/
structure SessionFilters where
  programId : Option String := none
  type : Option String := none
  hostId : Option String := none
  locationId : Option String := none
deriving DecidableEq

/-- Model of `SessionsService.get` in date-range mode, for one tenant's
schedule, exception and summary rows. -/
def sessionsQuery (schedules : List Schedule) (exceptions : List ScheduleException)
    (summaries : List (String × SummaryInfo)) (filters : SessionFilters)
    (startDate endDate : Ymd) : QueryResult :=
  let rangeStart := queryRangeStart startDate
  let rangeEnd := queryRangeEnd endDate
  if decide (rangeEnd - rangeStart > 7776000) then
    .err 400 ("Date range too large. Maximum 90 days")
  else
    let scheds : List Schedule :=
      match filters.programId with
      | some p => schedules.filter (fun s => s.programId == some p)
      | none => schedules
    let sDate := ymdString startDate
    let eDate := ymdString endDate
    let allSessions : List Session := scheds.flatMap (fun s =>
      let excs := exceptions.filter (fun e =>
        e.tenantId == s.tenantId && e.scheduleId == s.scheduleId &&
        decide (sDate ≤ e.occurrenceDate) && decide (e.occurrenceDate ≤ eDate))
      generateSessions s { rangeStart := rangeStart, rangeEnd := rangeEnd, exceptions := excs })
    let merged : List Session := allSessions.map (fun sess =>
      match (summaries.find? (fun kv => kv.1 == sess.sessionId)).map (fun kv => kv.2) with
      | some sm => { sess with bookedCount := sm.bookedCount, waitlistCount := sm.waitlistCount }
      | none => sess)
    let f1 : List Session :=
      match filters.type with
      | some ty => merged.filter (fun s => s.type == ty)
      | none => merged
    let f2 : List Session :=
      match filters.hostId with
      | some h => f1.filter (fun s => (s.hosts.getD []).any (fun hr => hr.id == h))
      | none => f1
    let f3 : List Session :=
      match filters.locationId with
      | some l => f2.filter (fun s => s.locationId == some l)
      | none => f2
    .ok (sortByStart f3)

end KxSched

namespace KxSched

/-! ## RRULE validation (`validateRRule`, src/utils/rrule-utils.ts)

`validateRRule` parses the rule string with the external rrule library and
inspects `rule.origOptions`.  `RRuleOptions` is the model of that parsed
options object: each RRULE field that can occur in a parseable rule string
is either absent or present with a value. -/

/-- Parsed options object (`rrulestr(s).origOptions`) of a syntactically
valid RRULE string. -/
structure RRuleOptions where
  freq : Option RFreq := none
  interval : Option Nat := none
  byweekday : Option (List Int) := none
  bynweekday : Option (List (Int × Int)) := none
  bysetpos : Option (List Int) := none
  bymonthday : Option (List Int) := none
  untilUtc : Option Int := none
  count : Option Nat := none
  byhour : Option (List Nat) := none
  byminute : Option (List Nat) := none
  bymonth : Option (List Nat) := none
deriving DecidableEq

/-- The distinct outcomes of `validateRRule` (one per error message). -/
inductive RRuleVerdict where
  | ok
  | unsupportedFrequency
  | weeklyRequiresByday
  | complexMonthly
deriving DecidableEq

/-- Model of `validateRRule(rruleStr)` on an already-parsed rule: only the
frequency check, the WEEKLY-requires-BYDAY check and the
MONTHLY-with-BYSETPOS-or-nth-weekday check are performed. -/
def validateRRule (o : RRuleOptions) : RRuleVerdict :=
  if ¬ (o.freq = some RFreq.daily ∨ o.freq = some RFreq.weekly ∨ o.freq = some RFreq.monthly)
  then .unsupportedFrequency
  else if o.freq = some RFreq.weekly ∧ o.byweekday = none then .weeklyRequiresByday
  else if o.freq = some RFreq.monthly ∧ (o.bysetpos ≠ none ∨ o.bynweekday ≠ none)
  then .complexMonthly
  else .ok

/-! ## Check-in time-window validation (src/utils/geo-utils.ts)

`validateCheckInTime` works on JavaScript Date millisecond values, so this
model is in milliseconds.  `diffMinutes = diffMs / 60000` is an exact
rational; the comparisons against the window bounds are exact, and
`minutesFromStart` is `Math.round(diffMinutes) = floor(diffMs/60000 + 1/2)`,
computed here exactly on integers. -/

/-- Math.round of a millisecond difference expressed in minutes. -/
def jsRoundMinutes (diffMs : Int) : Int :=
  Int.fdiv (diffMs + 30000) 60000

/-- Message of the time-window validation, one constructor per branch of the
source's message construction, carrying the numbers interpolated into it. -/
inductive TimeMsg where
  | tooEarly (minutesBeforeMagnitude windowBefore : Int)
  | tooLate (minutesAfter windowAfter : Int)
  | timeOk
deriving DecidableEq

/-- Result record of `validateCheckInTime`. -/
structure TimeWindowValidation where
  valid : Bool
  minutesFromStart : Int
  msg : TimeMsg
deriving DecidableEq

/-- Model of `validateCheckInTime(checkInTime, sessionStart, before, after)`. -/
def validateCheckInTime (checkInMs startMs windowMinutesBefore windowMinutesAfter : Int) :
    TimeWindowValidation :=
  let diffMs := checkInMs - startMs
  let windowStartMs := -windowMinutesBefore * 60000
  let windowEndMs := windowMinutesAfter * 60000
  let rounded := jsRoundMinutes diffMs
  let msg : TimeMsg :=
    if diffMs < windowStartMs then .tooEarly (rounded.natAbs : Int) windowMinutesBefore
    else if diffMs > windowEndMs then .tooLate rounded windowMinutesAfter
    else .timeOk
  { valid := decide (windowStartMs ≤ diffMs) && decide (diffMs ≤ windowEndMs)
    minutesFromStart := rounded
    msg := msg }

/-- Outcome of the check-in time gate of `AttendanceService.create`:
either the 400 rejection with the validator's message, or the attendance
status the record is written with. -/
inductive CheckInOutcome where
  | rejected (msg : TimeMsg)
  | recorded (status : String)
deriving DecidableEq

/-- Composition of `AttendanceService.create` steps 4 and 6: reject when the
window validation fails, otherwise the status is LATE when the rounded
minutes-from-start is positive and PRESENT otherwise (default 15/15 windows). -/
def checkInTimeStatus (checkInMs startMs : Int) : CheckInOutcome :=
  let v := validateCheckInTime checkInMs startMs 15 15
  if v.valid then
    .recorded (if decide (v.minutesFromStart > 0) then "LATE" else "PRESENT")
  else .rejected v.msg

end KxSched

namespace KxSched

/-! ## Stored rows and the document store

One structure per DynamoDB table the claims touch.  A summary row models a
SessionSummary item whose `bookedCount` attribute exists; the conditional
expression `attribute_not_exists(bookedCount)` holds exactly when no such
row is present. -/

/-- SessionSummary row as maintained by the capacity transactions. -/
structure SummaryRow where
  tenantId : String
  sessionId : String
  bookedCount : Nat
  capacity : Option Nat
  updatedAt : String
deriving DecidableEq

/-- Booking row (arbitrary pass-through body fields carry no claimed
behaviour and are not modelled). -/
structure BookingRow where
  tenantId : String
  sessionId : String
  bookingId : String
  subjectId : String
  subjectType : String
  status : String
  source : String
  createdAt : String
  cancelledAt : Option String := none
  pk : String
  gsi1pk : String
deriving DecidableEq

/-- Attendance row. -/
structure AttendanceRow where
  tenantId : String
  sessionId : String
  bookingId : String
  subjectId : String
  subjectType : String
  status : String
  checkInTime : Option String
  checkInMethod : String
  checkInLat : Option Int := none
  checkInLng : Option Int := none
  pk : String
  gsi1pk : String
deriving DecidableEq

/-- Location row (coordinates are only ever fed to the floating-point
distance check, which is abstracted as an oracle below, so their unit is
irrelevant; they are kept as scaled integers). -/
structure LocationRow where
  tenantId : String
  locationId : String
  lat : Option Int := none
  lng : Option Int := none
  checkInRadiusMeters : Option Nat := none
deriving DecidableEq

/-- The persistent store: one list per table. -/
structure Store where
  schedules : List Schedule
  scheduleExceptions : List ScheduleException
  sessionSummaries : List SummaryRow
  bookings : List BookingRow
  attendance : List AttendanceRow
  locations : List LocationRow
deriving DecidableEq

/-- Schedules table get by (tenantId, scheduleId). -/
def getScheduleRow (st : Store) (tenantId scheduleId : String) : Option Schedule :=
  st.schedules.find? (fun s => s.tenantId == tenantId && s.scheduleId == scheduleId)

/-- Exceptions table get by (tenantId#scheduleId, occurrenceDate). -/
def getExceptionRow (st : Store) (tenantId scheduleId occurrenceDate : String) :
    Option ScheduleException :=
  st.scheduleExceptions.find? (fun e =>
    e.tenantId == tenantId && e.scheduleId == scheduleId && e.occurrenceDate == occurrenceDate)

/-- Summaries table get by (tenantId, sessionId). -/
def getSummaryRow (st : Store) (tenantId sessionId : String) : Option SummaryRow :=
  st.sessionSummaries.find? (fun r => r.tenantId == tenantId && r.sessionId == sessionId)

/-! ## Bookings service (src/services/bookings-service.ts) -/

/-- Model of `BookingsService.getSessionInfo`: `none` when the schedule is
missing or the date's exception is CANCELLED, otherwise the resolved
capacity `exception?.overrideCapacity ?? schedule.baseCapacity`. -/
def bookingsGetSessionInfo (st : Store) (tenantId sessionId : String) : Option (Option Nat) :=
  let p := parseSessionId sessionId
  match getScheduleRow st tenantId p.1 with
  | none => none
  | some schedule =>
      match getExceptionRow st tenantId p.1 p.2 with
      | some exc =>
          if exc.type == "CANCELLED" then none
          else some (exc.overrideCapacity.orElse (fun _ => schedule.baseCapacity))
      | none => some schedule.baseCapacity

/-- Model of `BookingsService.findExistingBooking`: first booking of the
session's partition whose subject matches and whose status is not
CANCELLED (the table is scanned in sort-key order, modelled by list order). -/
def findExistingBooking (st : Store) (tenantId sessionId subjectId : String) :
    Option BookingRow :=
  let pk := tenantId ++ "#" ++ sessionId
  (st.bookings.filter (fun b =>
    b.pk == pk && b.subjectId == subjectId && b.status != "CANCELLED")).head?

/-- Model of `findBookingById` (both services): tenant-wide index query
filtered by bookingId, first match. -/
def findBookingById (st : Store) (tenantId bookingId : String) : Option BookingRow :=
  (st.bookings.filter (fun b => b.tenantId == tenantId && b.bookingId == bookingId)).head?

/-- The capacity condition of the reserve update:
`attribute_not_exists(bookedCount) OR bookedCount < :capacity` when a
capacity is supplied, unconditional otherwise. -/
def reserveCondition (capacity : Option Nat) (summary : Option SummaryRow) : Bool :=
  match capacity with
  | some c =>
      match summary with
      | none => true
      | some row => decide (row.bookedCount < c)
  | none => true

/-- Key-addressed item write of the summaries table: the table's items are
keyed uniquely by (tenantId, sessionId), so a write replaces the item at
that key and leaves every other key untouched.  List order is irrelevant to
the key lookups that read the table. -/
def upsertSummary (rows : List SummaryRow) (row : SummaryRow) : List SummaryRow :=
  row :: rows.filter (fun r => !(r.tenantId == row.tenantId && r.sessionId == row.sessionId))

/-- Effect of the reserve update once its condition passed:
`bookedCount = if_not_exists(bookedCount, 0) + 1`, stored capacity synced to
the resolved capacity when one is supplied, `updatedAt` refreshed. -/
def applyReserve (st : Store) (tenantId sessionId : String) (capacity : Option Nat)
    (timestamp : String) : Store :=
  let old := getSummaryRow st tenantId sessionId
  let newRow : SummaryRow :=
    { tenantId := tenantId
      sessionId := sessionId
      bookedCount := (old.map (fun r => r.bookedCount)).getD 0 + 1
      capacity :=
        match capacity with
        | some c => some c
        | none => old.bind (fun r => r.capacity)
      updatedAt := timestamp }
  { st with sessionSummaries := upsertSummary st.sessionSummaries newRow }

/-- Result of a booking create. -/
inductive BookingResult where
  | created (booking : BookingRow)
  | failed (status : Nat) (msg : String)
deriving DecidableEq

/-- The put condition of the booking write:
`attribute_not_exists(pk) AND attribute_not_exists(bookingId)`, i.e. no item
with this (pk, bookingId) key. -/
def bookingKeyExists (st : Store) (pk bookingId : String) : Bool :=
  st.bookings.any (fun b => b.pk == pk && b.bookingId == bookingId)

/-- The `TransactWriteCommand` of booking create, shared verbatim between
the HTTP service and both event handlers: a conditional put of the booking
row composed with the conditional reserve update; the transaction commits
both writes or neither, and any cancellation surfaces as 409
"Session is at capacity". -/
def transactPutAndReserve (st : Store) (booking : BookingRow) (capacity : Option Nat)
    (timestamp : String) : BookingResult × Store :=
  let putCond := !(bookingKeyExists st booking.pk booking.bookingId)
  let capCond := reserveCondition capacity (getSummaryRow st booking.tenantId booking.sessionId)
  if putCond && capCond then
    let st1 := { st with bookings := st.bookings ++ [booking] }
    (.created booking, applyReserve st1 booking.tenantId booking.sessionId capacity timestamp)
  else
    (.failed 409 ("Session is at capacity"), st)

/-- Model of `BookingsService.create` (POST /scheduling/bookings) for a
request that carries all required fields. -/
def bookingsCreate (st : Store) (tenantId sessionId subjectId subjectType bookingId
    timestamp : String) : BookingResult × Store :=
  match bookingsGetSessionInfo st tenantId sessionId with
  | none => (.failed 404 ("Session not found"), st)
  | some capacity =>
      let existing := findExistingBooking st tenantId sessionId subjectId
      if existing.map (fun b => b.status) = some "CONFIRMED" then
        (.failed 409 ("Already have a confirmed booking for this session"), st)
      else
        let booking : BookingRow :=
          { tenantId := tenantId
            sessionId := sessionId
            bookingId := bookingId
            subjectId := subjectId
            subjectType := subjectType
            status := "CONFIRMED"
            source := "api"
            createdAt := timestamp
            pk := tenantId ++ "#" ++ sessionId
            gsi1pk := tenantId ++ "#" ++ subjectId }
        transactPutAndReserve st booking capacity timestamp

/-- Result of a booking cancel. -/
inductive CancelResult where
  | cancelled (bookingId sessionId : String)
  | failed (status : Nat) (msg : String)
deriving DecidableEq

/-- Model of `BookingsService.delete` (cancel): locate the booking, check
ownership and current status, then a transaction setting the booking to
CANCELLED and decrementing the counter under `bookedCount > 0`; a cancelled
transaction surfaces as the generic 500 path of the handler. -/
def bookingsCancel (st : Store) (tenantId bookingId : String)
    (callerSubject : Option String) (timestamp : String) : CancelResult × Store :=
  match findBookingById st tenantId bookingId with
  | none => (.failed 404 ("Booking not found"), st)
  | some booking =>
      if (match callerSubject with
          | some s => s != booking.subjectId
          | none => false) then
        (.failed 403 ("Not authorized"), st)
      else if booking.status == "CANCELLED" then
        (.failed 400 ("Already cancelled"), st)
      else
        match getSummaryRow st tenantId booking.sessionId with
        | some row =>
            if decide (row.bookedCount > 0) then
              let st1 := { st with bookings := st.bookings.map (fun (b : BookingRow) =>
                if b.pk == booking.pk && b.bookingId == bookingId
                then { b with status := "CANCELLED", cancelledAt := some timestamp }
                else b) }
              let newRow := { row with bookedCount := row.bookedCount - 1, updatedAt := timestamp }
              (.cancelled bookingId booking.sessionId,
                { st1 with sessionSummaries := upsertSummary st1.sessionSummaries newRow })
            else (.failed 500 ("Transaction cancelled"), st)
        | none => (.failed 500 ("Transaction cancelled"), st)

end KxSched

namespace KxSched

/-! ## Event worker (src/events/booking-events-handler.ts) -/

/-- Numeric value of a decimal digit character. -/
def digitVal (c : Char) : Option Nat :=
  if decide ('0' ≤ c) && decide (c ≤ '9') then some (c.toNat - 48) else none

/-- Parse a non-empty all-digit character list as a number. -/
def parseDigitsAux : List Char → Nat → Option Nat
  | [], acc => some acc
  | c :: cs, acc =>
      match digitVal c with
      | some v => parseDigitsAux cs (acc * 10 + v)
      | none => none

/-- Parse a digit string. -/
def parseDigits (cs : List Char) : Option Nat :=
  if cs.isEmpty then none else parseDigitsAux cs 0

/-- Model of `new Date(date + "T00:00:00Z")` on a "YYYY-MM-DD" string:
the instant of that UTC midnight, or `none` for a malformed string (the
source's NaN Date, which cascades into finding no session). -/
def parseDateYmd (s : String) : Option Int :=
  match splitChar '-' s.data with
  | [a, b, c] =>
      if a.length == 4 && b.length == 2 && c.length == 2 then
        match parseDigits a, parseDigits b, parseDigits c with
        | some y, some m, some d => some (daysFromCivil (y : Int) m d * 86400)
        | _, _, _ => none
      else none
  | _ => none

/-- Model of the event handler's `getSessionInfo`: resolve the schedule and
exception, reject a CANCELLED date, materialize the session over the
timezone-widened day range (start − 14 h, end-of-day + 12 h), and return the
resolved capacity together with the materialized session (whose `date` feeds
the confirmation details; the human-readable time strings of the details
block are presentational and not modelled). -/
def eventGetSessionInfo (st : Store) (tenantId sessionId : String) :
    Option (Option Nat × Session) :=
  let p := parseSessionId sessionId
  match getScheduleRow st tenantId p.1 with
  | none => none
  | some schedule =>
      let exc := getExceptionRow st tenantId p.1 p.2
      if exc.map (fun e => e.type) = some "CANCELLED" then none
      else
        match parseDateYmd p.2 with
        | none => none
        | some t0 =>
            let sessions := generateSessions schedule
              { rangeStart := t0 - 14 * 3600
                rangeEnd := t0 + 86399 + 12 * 3600
                exceptions :=
                  match exc with
                  | some e => [e]
                  | none => [] }
            match sessions.find? (fun s => s.sessionId == sessionId) with
            | none => none
            | some session =>
                some ((exc.bind (fun e => e.overrideCapacity)).orElse
                        (fun _ => schedule.baseCapacity), session)

/-- Result event emitted by the worker for one incoming event. -/
inductive EventResult where
  | confirmedResult (bookingId : String)
  | failedResult (errorMsg : String)
deriving DecidableEq

/-- Model of `handleBookingRequested` for an event that carries the required
fields: resolve the session, short-circuit idempotently on an existing
CONFIRMED booking, otherwise run the same put-and-reserve transaction and
emit exactly one result event. -/
def handleBookingRequested (st : Store) (tenantId sessionId subjectId bookingId
    timestamp : String) : EventResult × Store :=
  match eventGetSessionInfo st tenantId sessionId with
  | none => (.failedResult ("Session not found or has been cancelled"), st)
  | some info =>
      let existing := findExistingBooking st tenantId sessionId subjectId
      if existing.map (fun b => b.status) = some "CONFIRMED" then
        (.confirmedResult ((existing.map (fun b => b.bookingId)).getD ""), st)
      else
        let booking : BookingRow :=
          { tenantId := tenantId
            sessionId := sessionId
            bookingId := bookingId
            subjectId := subjectId
            subjectType := "PROSPECT"
            status := "CONFIRMED"
            source := "agent"
            createdAt := timestamp
            pk := tenantId ++ "#" ++ sessionId
            gsi1pk := tenantId ++ "#" ++ subjectId }
        match transactPutAndReserve st booking info.1 timestamp with
        | (.created b, st2) => (.confirmedResult b.bookingId, st2)
        | (.failed _ _, st2) => (.failedResult ("Session is at capacity"), st2)

/-- Model of `handleConsultationRequested`: identical protocol with the
lead id as subject and subjectType LEAD. -/
def handleConsultationRequested (st : Store) (tenantId sessionId leadId bookingId
    timestamp : String) : EventResult × Store :=
  match eventGetSessionInfo st tenantId sessionId with
  | none => (.failedResult ("Session not found or has been cancelled"), st)
  | some info =>
      let existing := findExistingBooking st tenantId sessionId leadId
      if existing.map (fun b => b.status) = some "CONFIRMED" then
        (.confirmedResult ((existing.map (fun b => b.bookingId)).getD ""), st)
      else
        let booking : BookingRow :=
          { tenantId := tenantId
            sessionId := sessionId
            bookingId := bookingId
            subjectId := leadId
            subjectType := "LEAD"
            status := "CONFIRMED"
            source := "agent"
            createdAt := timestamp
            pk := tenantId ++ "#" ++ sessionId
            gsi1pk := tenantId ++ "#" ++ leadId }
        match transactPutAndReserve st booking info.1 timestamp with
        | (.created b, st2) => (.confirmedResult b.bookingId, st2)
        | (.failed _ _, st2) => (.failedResult ("Session is at capacity"), st2)

/-! ## Attendance service (src/services/attendance-service.ts) -/

/-- Attendance table get by (tenantId#sessionId, bookingId). -/
def getAttendanceRow (st : Store) (tenantId sessionId bookingId : String) :
    Option AttendanceRow :=
  st.attendance.find? (fun a =>
    a.pk == tenantId ++ "#" ++ sessionId && a.bookingId == bookingId)

/-- Model of the attendance service's `getSessionInfo`: schedule and
exception lookup, CANCELLED rejection, then materialization over the one-day
range `[date + "T00:00:00Z", +24 h]`. -/
def attendanceGetSessionInfo (st : Store) (tenantId sessionId : String) : Option Session :=
  let p := parseSessionId sessionId
  match getScheduleRow st tenantId p.1 with
  | none => none
  | some schedule =>
      let exc := getExceptionRow st tenantId p.1 p.2
      if exc.map (fun e => e.type) = some "CANCELLED" then none
      else
        match parseDateYmd p.2 with
        | none => none
        | some t0 =>
            let sessions := generateSessions schedule
              { rangeStart := t0
                rangeEnd := t0 + 86400
                exceptions :=
                  match exc with
                  | some e => [e]
                  | none => [] }
            sessions.find? (fun s => s.sessionId == sessionId)

/-- Oracle for the floating-point Haversine check `validateCheckIn`:
given check-in lat/lng, location lat/lng and the radius, decide validity.
IEEE-754 trigonometry is outside this embedding and no claim depends on the
value, so the theorems below hold for every oracle. -/
def GpsFn : Type :=
  Int → Int → Int → Int → Nat → Bool

/-- Failure reasons of the attendance endpoints (one per handler branch). -/
inductive AttFailReason where
  | bookingNotFound
  | badBookingStatus
  | notAuthorized
  | alreadyCheckedIn
  | sessionNotFound
  | timeWindow (msg : TimeMsg)
  | gpsOutOfRange
  | invalidStatus
deriving DecidableEq

/-- Result of an attendance endpoint. -/
inductive AttResult where
  | checkedIn (record : AttendanceRow)
  | failed (status : Nat) (reason : AttFailReason)
deriving DecidableEq

/-- Key-addressed item write of the attendance table (the effect of the
unconditional PutCommand): replaces the item at the (pk, bookingId) key. -/
def upsertAttendance (rows : List AttendanceRow) (row : AttendanceRow) : List AttendanceRow :=
  row :: rows.filter (fun r => !(r.pk == row.pk && r.bookingId == row.bookingId))

/-- Model of `AttendanceService.create` (GPS check-in): find the booking by
id, require CONFIRMED status and subject match, reject a duplicate PRESENT
record, materialize the session, validate the time window (default 15/15)
and, when coordinates were sent and the session's location has stored
coordinates, the GPS radius; then put the attendance record keyed by the
booking's session. -/
def attendanceCreate (gps : GpsFn) (st : Store) (tenantId : String)
    (callerSubject : Option String) (bookingId : String) (coords : Option (Int × Int))
    (nowSec : Int) (timestamp : String) : AttResult × Store :=
  match findBookingById st tenantId bookingId with
  | none => (.failed 404 .bookingNotFound, st)
  | some booking =>
      if booking.status != "CONFIRMED" then (.failed 400 .badBookingStatus, st)
      else if (match callerSubject with
               | some s => s != booking.subjectId
               | none => false) then
        (.failed 403 .notAuthorized, st)
      else
        let existing := getAttendanceRow st tenantId booking.sessionId bookingId
        if existing.map (fun a => a.status) = some "PRESENT" then
          (.failed 400 .alreadyCheckedIn, st)
        else
          match attendanceGetSessionInfo st tenantId booking.sessionId with
          | none => (.failed 404 .sessionNotFound, st)
          | some session =>
              let tv := validateCheckInTime (nowSec * 1000) (session.start * 1000) 15 15
              if !tv.valid then (.failed 400 (.timeWindow tv.msg), st)
              else
                let gpsCheck : Option Bool :=
                  match coords with
                  | some c =>
                      match session.locationId with
                      | some lid =>
                          match st.locations.find? (fun l =>
                            l.tenantId == tenantId && l.locationId == lid) with
                          | some loc =>
                              match loc.lat, loc.lng with
                              | some la, some ln =>
                                  some (gps c.1 c.2 la ln (loc.checkInRadiusMeters.getD 100))
                              | _, _ => none
                          | none => none
                      | none => none
                  | none => none
                match gpsCheck with
                | some false => (.failed 400 .gpsOutOfRange, st)
                | _ =>
                    let record : AttendanceRow :=
                      { tenantId := tenantId
                        sessionId := booking.sessionId
                        bookingId := bookingId
                        subjectId := booking.subjectId
                        subjectType := booking.subjectType
                        status := if decide (tv.minutesFromStart > 0) then "LATE" else "PRESENT"
                        checkInTime := some timestamp
                        checkInMethod := if coords.isSome then "GPS" else "MANUAL"
                        checkInLat := coords.map (fun c => c.1)
                        checkInLng := coords.map (fun c => c.2)
                        pk := tenantId ++ "#" ++ booking.sessionId
                        gsi1pk := tenantId ++ "#" ++ booking.subjectId }
                    (.checkedIn record,
                      { st with attendance := upsertAttendance st.attendance record })

/-- Model of `AttendanceService.update` (admin override): validate the
status value, find the booking by id alone, then put an OVERRIDE attendance
record keyed by the request body's sessionId. -/
def attendanceUpdate (st : Store) (tenantId sessionId bookingId status : String)
    (timestamp : String) : AttResult × Store :=
  if !(["PRESENT", "LATE", "NO_SHOW"].contains status) then
    (.failed 400 .invalidStatus, st)
  else
    match findBookingById st tenantId bookingId with
    | none => (.failed 404 .bookingNotFound, st)
    | some booking =>
        let record : AttendanceRow :=
          { tenantId := tenantId
            sessionId := sessionId
            bookingId := bookingId
            subjectId := booking.subjectId
            subjectType := booking.subjectType
            status := status
            checkInTime := if status != "NO_SHOW" then some timestamp else none
            checkInMethod := "OVERRIDE"
            pk := tenantId ++ "#" ++ sessionId
            gsi1pk := tenantId ++ "#" ++ booking.subjectId }
        (.checkedIn record,
          { st with attendance := upsertAttendance st.attendance record })

/-! ## Operation sequences over the store -/

/-- One mutating request against the store (each carries its own tenant). -/
inductive StoreOp where
  | createBooking (tenantId sessionId subjectId subjectType bookingId timestamp : String)
  | cancelBooking (tenantId bookingId : String) (callerSubject : Option String)
      (timestamp : String)
  | eventBooking (tenantId sessionId subjectId bookingId timestamp : String)
  | eventConsultation (tenantId sessionId leadId bookingId timestamp : String)
  | checkIn (tenantId : String) (callerSubject : Option String) (bookingId : String)
      (coords : Option (Int × Int)) (nowSec : Int) (timestamp : String)
  | adminOverride (tenantId sessionId bookingId status timestamp : String)

/-- State reached after one request. -/
def applyOp (gps : GpsFn) (st : Store) : StoreOp → Store
  | .createBooking t s u ty b ts => (bookingsCreate st t s u ty b ts).2
  | .cancelBooking t b cs ts => (bookingsCancel st t b cs ts).2
  | .eventBooking t s u b ts => (handleBookingRequested st t s u b ts).2
  | .eventConsultation t s l b ts => (handleConsultationRequested st t s l b ts).2
  | .checkIn t cs b c n ts => (attendanceCreate gps st t cs b c n ts).2
  | .adminOverride t s b stt ts => (attendanceUpdate st t s b stt ts).2

/-- State reached after a sequence of requests. -/
def applyOps (gps : GpsFn) (st : Store) (ops : List StoreOp) : Store :=
  ops.foldl (applyOp gps) st

/-- The stored bookedCount of a session's summary (0 when no row exists). -/
def summaryCount (st : Store) (tenantId sessionId : String) : Nat :=
  ((getSummaryRow st tenantId sessionId).map (fun r => r.bookedCount)).getD 0

end KxSched

namespace KxSched

/-! ## PATCH merge logic of the CRUD services

The CRUD services accept arbitrary JSON bodies and merge them over the
existing item with an object spread, then force the identity fields back
from the existing item.  Items are therefore modelled as string-keyed
association objects with JavaScript spread semantics. -/

/-- A JSON object as a key/value association list (first binding wins on
lookup; values are opaque strings). -/
abbrev JsonObj : Type := List (String × String)

/-- Property lookup. -/
def jsonGet (o : JsonObj) (k : String) : Option String :=
  (o.find? (fun kv => kv.1 == k)).map (fun kv => kv.2)

/-- JavaScript object spread: every property of `b` overrides `a`. -/
def jsonSpread (a b : JsonObj) : JsonObj :=
  a.filter (fun kv => !(b.any (fun kv2 => kv2.1 == kv.1))) ++ b

/-- Overwrite one property. -/
def jsonSet (o : JsonObj) (k v : String) : JsonObj :=
  jsonSpread o [(k, v)]

/-- Force a property to the existing item's value, exactly as the services'
`field: current.field` entries do (an absent field stays absent). -/
def jsonForce (o cur : JsonObj) (k : String) : JsonObj :=
  match jsonGet cur k with
  | some v => jsonSet o k v
  | none => o.filter (fun kv => !(kv.1 == k))

/-- The item written by `ProgramsService.update`:
`{ ...current, ...body, tenantId, programId, createdAt: current.*, updatedAt: now }`. -/
def programsUpdatedItem (current body : JsonObj) (nowTs : String) : JsonObj :=
  let merged := jsonSpread current body
  let m1 := jsonForce merged current ("tenantId")
  let m2 := jsonForce m1 current ("programId")
  let m3 := jsonForce m2 current ("createdAt")
  jsonSet m3 ("updatedAt") nowTs

/-- The item written by `LocationsService.update`. -/
def locationsUpdatedItem (current body : JsonObj) (nowTs : String) : JsonObj :=
  let merged := jsonSpread current body
  let m1 := jsonForce merged current ("tenantId")
  let m2 := jsonForce m1 current ("locationId")
  let m3 := jsonForce m2 current ("createdAt")
  jsonSet m3 ("updatedAt") nowTs

/-- The item written by `SchedulesService.update`; `primaryHostId` is
`(body.hosts ?? current.hosts)?.[0]?.id`, which drives the host-index keys. -/
def schedulesUpdatedItem (current body : JsonObj) (primaryHostId : Option String)
    (tenantId nowTs : String) : JsonObj :=
  let merged := jsonSpread current body
  let m1 := jsonForce merged current ("tenantId")
  let m2 := jsonForce m1 current ("scheduleId")
  let m3 := jsonForce m2 current ("createdAt")
  let m4 := jsonSet m3 ("updatedAt") nowTs
  match primaryHostId with
  | some h => jsonSet (jsonSet m4 ("gsi2pk") tenantId) ("gsi2sk") h
  | none => m4

/-- The item written by `ScheduleExceptionsService.update` (the `type`
field is re-asserted to `body.type ?? current.type` after the spread). -/
def exceptionsUpdatedItem (current body : JsonObj) (nowTs : String) : JsonObj :=
  let merged := jsonSpread current body
  let m1 := jsonForce merged current ("tenantId")
  let m2 := jsonForce m1 current ("scheduleId")
  let m3 := jsonForce m2 current ("occurrenceDate")
  let m4 := jsonForce m3 current ("pk")
  let m5 := jsonForce m4 current ("createdAt")
  let m6 :=
    match (jsonGet body ("type")).orElse (fun _ => jsonGet current ("type")) with
    | some ty => jsonSet m5 ("type") ty
    | none => m5.filter (fun kv => !(kv.1 == "type"))
  jsonSet m6 ("updatedAt") nowTs

/-- A keyed table of JSON items.  Programs, locations and schedules are
keyed by (tenantId, id); exceptions by (tenantId#scheduleId, occurrenceDate). -/
abbrev JsonTable : Type := List ((String × String) × JsonObj)

/-- Table get by composite key. -/
def tableGet (tb : JsonTable) (key : String × String) : Option JsonObj :=
  (tb.find? (fun kv => kv.1.1 == key.1 && kv.1.2 == key.2)).map (fun kv => kv.2)

/-- Result of a PATCH handler: the item that was stored and returned, or an
error status. -/
inductive PatchResult where
  | ok (item : JsonObj)
  | err (status : Nat)
deriving DecidableEq

/-- Model of `ProgramsService.update`. -/
def programsUpdate (tb : JsonTable) (tenantId : String) (body : JsonObj)
    (nowTs : String) : PatchResult :=
  match jsonGet body ("programId") with
  | none => .err 400
  | some pid =>
      match tableGet tb (tenantId, pid) with
      | none => .err 404
      | some current => .ok (programsUpdatedItem current body nowTs)

/-- Model of `LocationsService.update`; `coordsOk` is the outcome of the
floating-point `isValidCoordinates` check on the merged lat/lng. -/
def locationsUpdate (tb : JsonTable) (tenantId : String) (body : JsonObj)
    (coordsOk : Bool) (nowTs : String) : PatchResult :=
  match jsonGet body ("locationId") with
  | none => .err 400
  | some lid =>
      match tableGet tb (tenantId, lid) with
      | none => .err 404
      | some current =>
          if !coordsOk then .err 400
          else .ok (locationsUpdatedItem current body nowTs)

/-- Model of `SchedulesService.update`; `bodyRRule` is the body's rrule
string parsed by the rrule library, when the body carries one. -/
def schedulesUpdate (tb : JsonTable) (tenantId : String) (body : JsonObj)
    (bodyRRule : Option RRuleOptions) (primaryHostId : Option String)
    (nowTs : String) : PatchResult :=
  match jsonGet body ("scheduleId") with
  | none => .err 400
  | some sid =>
      match tableGet tb (tenantId, sid) with
      | none => .err 404
      | some current =>
          match bodyRRule with
          | some r =>
              if validateRRule r != RRuleVerdict.ok then .err 400
              else .ok (schedulesUpdatedItem current body primaryHostId tenantId nowTs)
          | none => .ok (schedulesUpdatedItem current body primaryHostId tenantId nowTs)

/-- Model of `ScheduleExceptionsService.update`. -/
def exceptionsUpdate (tb : JsonTable) (tenantId : String) (body : JsonObj)
    (nowTs : String) : PatchResult :=
  match jsonGet body ("scheduleId"), jsonGet body ("occurrenceDate") with
  | some sid, some od =>
      (match tableGet tb (tenantId ++ "#" ++ sid, od) with
       | none => .err 404
       | some current => .ok (exceptionsUpdatedItem current body nowTs))
  | _, _ => .err 400

end KxSched

namespace KxSched

/-! ## Concrete instances used by the theorems below -/

/-- A distance oracle accepting everything (any oracle works; the theorems
quantify over all of them). -/
def gpsAlways : GpsFn := fun _ _ _ _ _ => true

/-- The schedule of the spec's literal recurrence-expansion scenario:
Mondays, Wednesdays and Fridays 07:00–08:00 America/New_York. -/
def schedX : Schedule :=
  { tenantId := "t1"
    scheduleId := "sched_x"
    type := "SESSION"
    programId := some "prog1"
    start := { year := 2025, month := 1, day := 6, hour := 7, minute := 0, second := 0 }
    endTime := { year := 2025, month := 1, day := 6, hour := 8, minute := 0, second := 0 }
    timezone := americaNewYork2025
    isRecurring := true
    rrule := some { freq := RFreq.weekly, byday := [0, 2, 4] } }

/-- The absolute range the Session Reader builds for
startDate = 2025-01-06, endDate = 2025-01-10. -/
def c5Opts : GenOptions :=
  { rangeStart := queryRangeStart ⟨2025, 1, 6⟩
    rangeEnd := queryRangeEnd ⟨2025, 1, 10⟩ }

/-- A non-recurring Monday 7 PM EST session (the spec's own boundary
example: its absolute start is 2025-01-14T00:00:00Z). -/
def mondaySchedule : Schedule :=
  { tenantId := "t1"
    scheduleId := "sched_m"
    type := "SESSION"
    programId := some "prog1"
    start := { year := 2025, month := 1, day := 13, hour := 19, minute := 0, second := 0 }
    endTime := { year := 2025, month := 1, day := 13, hour := 20, minute := 0, second := 0 }
    timezone := americaNewYork2025
    isRecurring := false }

/-- Non-recurring schedule whose 2025-01-06 occurrence is overridden. -/
def c6Schedule : Schedule :=
  { tenantId := "t1"
    scheduleId := "sched_o"
    type := "SESSION"
    programId := some "prog1"
    start := { year := 2025, month := 1, day := 6, hour := 7, minute := 0, second := 0 }
    endTime := { year := 2025, month := 1, day := 6, hour := 8, minute := 0, second := 0 }
    timezone := americaNewYork2025
    isRecurring := false }

/-- An OVERRIDE exception moving the 2025-01-06 occurrence's start to a
different local date (nothing in the service validates override dates). -/
def c6Exception : ScheduleException :=
  { tenantId := "t1"
    scheduleId := "sched_o"
    occurrenceDate := "2025-01-06"
    type := "OVERRIDE"
    overrideStart := some { year := 2025, month := 2, day := 1, hour := 7, minute := 0, second := 0 } }

/-- Generation options materializing the overridden date. -/
def c6Opts : GenOptions :=
  { rangeStart := queryRangeStart ⟨2025, 1, 6⟩
    rangeEnd := queryRangeEnd ⟨2025, 1, 6⟩
    exceptions := [c6Exception] }

/-- The session materialized from `schedX`'s own first occurrence
(2025-01-06 07:00 EST, i.e. 2025-01-06T12:00:00Z). -/
def c6WitnessSession : Session :=
  { tenantId := "t1"
    sessionId := "sched_x#2025-01-06"
    scheduleId := "sched_x"
    programId := some "prog1"
    type := "SESSION"
    date := "2025-01-06"
    start := 1736164800
    endTime := 1736168400
    timezone := americaNewYork2025
    hosts := none
    locationId := none
    tags := none
    capacity := none
    bookedCount := 0
    waitlistCount := 0 }

/-- A schedule whose resolved capacity is 0. -/
def capZeroSchedule : Schedule :=
  { tenantId := "t1"
    scheduleId := "sched_a"
    type := "SESSION"
    programId := some "prog1"
    start := { year := 2025, month := 1, day := 6, hour := 7, minute := 0, second := 0 }
    endTime := { year := 2025, month := 1, day := 6, hour := 8, minute := 0, second := 0 }
    timezone := americaNewYork2025
    isRecurring := false
    baseCapacity := some 0 }

/-- Store holding only the capacity-0 schedule. -/
def c1CexStore : Store :=
  { schedules := [capZeroSchedule]
    scheduleExceptions := []
    sessionSummaries := []
    bookings := []
    attendance := []
    locations := [] }

/-- A schedule with capacity 1 (for the capacity-invariant witness). -/
def capOneSchedule : Schedule :=
  { tenantId := "t1"
    scheduleId := "sched_w"
    type := "SESSION"
    programId := some "prog1"
    start := { year := 2025, month := 1, day := 6, hour := 7, minute := 0, second := 0 }
    endTime := { year := 2025, month := 1, day := 6, hour := 8, minute := 0, second := 0 }
    timezone := americaNewYork2025
    isRecurring := false
    baseCapacity := some 1 }

/-- Store holding only the capacity-1 schedule. -/
def c1WitStore : Store :=
  { schedules := [capOneSchedule]
    scheduleExceptions := []
    sessionSummaries := []
    bookings := []
    attendance := []
    locations := [] }

/-- Competing requests against the capacity-1 session, a cancel, and a
retry through the event path. -/
def c1WitnessOps : List StoreOp :=
  [ .createBooking "t1" "sched_w#2025-01-06" "alice" "USER" "bk1" "ts1"
  , .createBooking "t1" "sched_w#2025-01-06" "bob" "USER" "bk2" "ts2"
  , .cancelBooking "t1" "bk1" (some "alice") "ts3"
  , .eventBooking "t1" "sched_w#2025-01-06" "carol" "bk3" "ts4" ]

/-- A schedule with capacity 1 whose summary row is already full. -/
def c2Schedule : Schedule :=
  { tenantId := "t1"
    scheduleId := "sched_c"
    type := "SESSION"
    programId := some "prog1"
    start := { year := 2025, month := 1, day := 6, hour := 7, minute := 0, second := 0 }
    endTime := { year := 2025, month := 1, day := 6, hour := 8, minute := 0, second := 0 }
    timezone := americaNewYork2025
    isRecurring := false
    baseCapacity := some 1 }

/-- Store whose summary for `sched_c#2025-01-06` is at capacity. -/
def c2Store : Store :=
  { schedules := [c2Schedule]
    scheduleExceptions := []
    sessionSummaries :=
      [ { tenantId := "t1", sessionId := "sched_c#2025-01-06", bookedCount := 1
          capacity := some 1, updatedAt := "ts0" } ]
    bookings := []
    attendance := []
    locations := [] }

/-- An unlimited-capacity schedule. -/
def unlimitedSchedule : Schedule :=
  { tenantId := "t1"
    scheduleId := "sched_u"
    type := "SESSION"
    programId := some "prog1"
    start := { year := 2025, month := 1, day := 6, hour := 7, minute := 0, second := 0 }
    endTime := { year := 2025, month := 1, day := 6, hour := 8, minute := 0, second := 0 }
    timezone := americaNewYork2025
    isRecurring := false }

/-- Store in which alice already holds a WAITLIST booking on the session. -/
def c3CexStore : Store :=
  { schedules := [unlimitedSchedule]
    scheduleExceptions := []
    sessionSummaries := []
    bookings :=
      [ { tenantId := "t1", sessionId := "sched_u#2025-01-06", bookingId := "bk0"
          subjectId := "alice", subjectType := "MEMBER", status := "WAITLIST"
          source := "api", createdAt := "ts0"
          pk := "t1#sched_u#2025-01-06", gsi1pk := "t1#alice" } ]
    attendance := []
    locations := [] }

/-- Store in which alice already holds a CONFIRMED booking on the session. -/
def c3WitStore : Store :=
  { schedules := [unlimitedSchedule]
    scheduleExceptions := []
    sessionSummaries := []
    bookings :=
      [ { tenantId := "t1", sessionId := "sched_u#2025-01-06", bookingId := "bk0"
          subjectId := "alice", subjectType := "MEMBER", status := "CONFIRMED"
          source := "api", createdAt := "ts0"
          pk := "t1#sched_u#2025-01-06", gsi1pk := "t1#alice" } ]
    attendance := []
    locations := [] }

/-- Store with one confirmed booking of alice on session
`sched_a#2025-01-06` and no attendance rows. -/
def c9Store : Store :=
  { schedules := [capZeroSchedule]
    scheduleExceptions := []
    sessionSummaries := []
    bookings :=
      [ { tenantId := "t1", sessionId := "sched_a#2025-01-06", bookingId := "bk1"
          subjectId := "alice", subjectType := "MEMBER", status := "CONFIRMED"
          source := "api", createdAt := "ts0"
          pk := "t1#sched_a#2025-01-06", gsi1pk := "t1#alice" } ]
    attendance := []
    locations := [] }

/-- The attendance record the admin override writes for a request naming a
session different from the booking's. -/
def c9Record : AttendanceRow :=
  { tenantId := "t1"
    sessionId := "sched_b#2025-01-06"
    bookingId := "bk1"
    subjectId := "alice"
    subjectType := "MEMBER"
    status := "PRESENT"
    checkInTime := some "ts2"
    checkInMethod := "OVERRIDE"
    pk := "t1#sched_b#2025-01-06"
    gsi1pk := "t1#alice" }

/-- Programs table row for the PATCH witness. -/
def c10ProgTable : JsonTable :=
  [ (("t1", "p1"),
     [("tenantId", "t1"), ("programId", "p1"), ("createdAt", "c0"), ("name", "Yoga")]) ]

/-- PATCH body trying to overwrite the protected program fields. -/
def c10ProgBody : JsonObj :=
  [("programId", "p1"), ("tenantId", "EVIL"), ("createdAt", "EVIL"), ("name", "Pilates")]

/-- Locations table row for the PATCH witness. -/
def c10LocTable : JsonTable :=
  [ (("t1", "l1"),
     [("tenantId", "t1"), ("locationId", "l1"), ("createdAt", "c0"), ("name", "Studio")]) ]

/-- PATCH body trying to overwrite the protected location fields. -/
def c10LocBody : JsonObj :=
  [("locationId", "l1"), ("tenantId", "EVIL"), ("createdAt", "EVIL"), ("name", "Annex")]

/-- Schedules table row for the PATCH witness. -/
def c10SchedTable : JsonTable :=
  [ (("t1", "s1"),
     [("tenantId", "t1"), ("scheduleId", "s1"), ("createdAt", "c0"), ("type", "SESSION")]) ]

/-- PATCH body trying to overwrite the protected schedule fields. -/
def c10SchedBody : JsonObj :=
  [("scheduleId", "s1"), ("tenantId", "EVIL"), ("createdAt", "EVIL"), ("type", "BLOCK")]

/-- Exceptions table row for the PATCH witness. -/
def c10ExcTable : JsonTable :=
  [ (("t1#s1", "2025-01-08"),
     [("tenantId", "t1"), ("scheduleId", "s1"), ("occurrenceDate", "2025-01-08"),
      ("pk", "t1#s1"), ("createdAt", "c0"), ("type", "CANCELLED")]) ]

/-- PATCH body trying to overwrite the protected exception fields. -/
def c10ExcBody : JsonObj :=
  [("scheduleId", "s1"), ("occurrenceDate", "2025-01-08"), ("tenantId", "EVIL"),
   ("createdAt", "EVIL"), ("type", "OVERRIDE")]

end KxSched

namespace KxSched

/-- Whether the exception map holds no OVERRIDE-with-overrideStart entry for
a date (the only situation in which a materialized session's start is not
derived from its own occurrence). -/
def noOverrideStart (exceptions : List ScheduleException) (dateStr : String) : Bool :=
  match exceptionFor exceptions dateStr with
  | some e => !(e.type == "OVERRIDE") || e.overrideStart.isNone
  | none => true

/-- The single session a non-recurring schedule materializes when its start
falls in range and no exception applies. -/
def nonRecurringSession (schedule : Schedule) : Session :=
  let naive := naiveSecondsOf schedule.start
  let dateStr := formatInstantDateUTC naive
  { tenantId := schedule.tenantId
    sessionId := generateSessionId schedule.scheduleId dateStr
    scheduleId := schedule.scheduleId
    programId := schedule.programId
    type := schedule.type
    date := dateStr
    start := convertNaiveLocalToUtc naive schedule.timezone
    endTime := convertNaiveLocalToUtc naive schedule.timezone + durationSecondsOf schedule
    timezone := schedule.timezone
    hosts := schedule.hosts
    locationId := schedule.locationId
    tags := schedule.tags
    capacity := schedule.baseCapacity
    bookedCount := 0
    waitlistCount := 0 }

/-- Referential integrity of the attendance table: every record points at a
booking with the same tenant and bookingId, and every record not written by
an admin override also carries that booking's sessionId. -/
def attendanceIntegrity (st : Store) : Prop :=
  ∀ r ∈ st.attendance, ∃ b ∈ st.bookings,
    b.tenantId = r.tenantId ∧ b.bookingId = r.bookingId ∧
    (r.checkInMethod ≠ "OVERRIDE" → b.sessionId = r.sessionId)

end KxSched

/-! ## Theorems

The claim theorems below follow the helper development: the capacity-bound
chain for the booking counter, the attendance-integrity chain, the JSON
merge lemmas of the PATCH services, and the per-claim theorems with their
witnesses and counterexamples. -/

namespace KxSched

theorem find?_filter_of_imp {α : Type} (l : List α) (p q : α → Bool)
    (h : ∀ x, p x = true → q x = true) :
    (l.filter q).find? p = l.find? p := by
  induction l with
  | nil => rfl
  | cons x l ih =>
      by_cases hq : q x = true
      · rw [List.filter_cons_of_pos hq]
        by_cases hp : p x = true
        · rw [List.find?_cons_of_pos _ hp, List.find?_cons_of_pos _ hp]
        · rw [List.find?_cons_of_neg _ hp, List.find?_cons_of_neg _ hp, ih]
      · rw [List.filter_cons_of_neg (by simpa using hq)]
        have hp : ¬ p x = true := fun hpx => hq (h x hpx)
        rw [List.find?_cons_of_neg _ hp, ih]

theorem find?_upsertSummary (rows : List SummaryRow) (row : SummaryRow) (t s : String) :
    List.find? (fun r => r.tenantId == t && r.sessionId == s) (upsertSummary rows row)
      = if row.tenantId = t ∧ row.sessionId = s then some row
        else List.find? (fun r => r.tenantId == t && r.sessionId == s) rows := by
  unfold upsertSummary
  by_cases hk : row.tenantId = t ∧ row.sessionId = s
  · rw [if_pos hk]
    obtain ⟨h1, h2⟩ := hk
    exact List.find?_cons_of_pos _ (by simp [h1, h2])
  · rw [if_neg hk]
    rw [List.find?_cons_of_neg _ (by
      simp only [Bool.and_eq_true, beq_iff_eq]
      intro hc
      exact hk ⟨hc.1, hc.2⟩)]
    exact find?_filter_of_imp _ _ _ (by
      intro x hx
      simp only [Bool.and_eq_true, beq_iff_eq] at hx
      simp only [Bool.not_eq_true', Bool.and_eq_false_iff, beq_eq_false_iff_ne, ne_eq]
      by_cases h1 : x.tenantId = row.tenantId
      · right
        intro h2
        exact hk ⟨h1.symm.trans hx.1, h2.symm.trans hx.2⟩
      · left
        exact h1)

theorem summaryCount_of_upsert (st' : Store) (rows : List SummaryRow) (row : SummaryRow)
    (t s : String) (hfield : st'.sessionSummaries = upsertSummary rows row) :
    summaryCount st' t s
      = if row.tenantId = t ∧ row.sessionId = s then row.bookedCount
        else (Option.map (fun r => r.bookedCount)
                (rows.find? (fun r => r.tenantId == t && r.sessionId == s))).getD 0 := by
  unfold summaryCount getSummaryRow
  rw [hfield, find?_upsertSummary]
  by_cases hk : row.tenantId = t ∧ row.sessionId = s
  · rw [if_pos hk, if_pos hk]
    rfl
  · rw [if_neg hk, if_neg hk]

theorem summaryCount_setBookings (st : Store) (bs : List BookingRow) (t s : String) :
    summaryCount { st with bookings := bs } t s = summaryCount st t s := rfl

theorem summaryCount_applyReserve (st : Store) (t' s' : String) (cap : Option Nat)
    (ts t s : String) :
    summaryCount (applyReserve st t' s' cap ts) t s
      = if t' = t ∧ s' = s then summaryCount st t' s' + 1 else summaryCount st t s := by
  unfold applyReserve
  rw [summaryCount_of_upsert _ st.sessionSummaries _ t s rfl]
  by_cases hk : t' = t ∧ s' = s
  · rw [if_pos hk, if_pos hk]
    rfl
  · rw [if_neg hk, if_neg hk]
    rfl

theorem summaryCount_transact_le (st : Store) (booking : BookingRow) (cap : Option Nat)
    (ts t s : String) (C : Nat) (hC : 1 ≤ C)
    (hcap : booking.tenantId = t ∧ booking.sessionId = s → cap = some C)
    (h : summaryCount st t s ≤ C) :
    summaryCount ((transactPutAndReserve st booking cap ts).2) t s ≤ C := by
  unfold transactPutAndReserve
  dsimp only
  split
  case isTrue hcond =>
      have hcap2 : reserveCondition cap
          (getSummaryRow st booking.tenantId booking.sessionId) = true :=
        (Bool.and_eq_true _ _ |>.mp hcond).2
      rw [summaryCount_applyReserve]
      by_cases hk : booking.tenantId = t ∧ booking.sessionId = s
      · rw [if_pos hk, summaryCount_setBookings]
        rw [hcap hk] at hcap2
        unfold reserveCondition at hcap2
        unfold summaryCount at h ⊢
        cases hrow : getSummaryRow st booking.tenantId booking.sessionId with
        | none => simpa using hC
        | some r =>
            rw [hrow] at hcap2
            have hlt : r.bookedCount < C := by simpa using hcap2
            simp only [Option.map_some', Option.getD_some]
            omega
      · rw [if_neg hk, summaryCount_setBookings]
        exact h
  case isFalse => exact h

end KxSched

namespace KxSched

/-- The put-and-reserve transaction leaves the schedules and exceptions
tables untouched. -/
theorem transact_frame (st : Store) (booking : BookingRow) (cap : Option Nat) (ts : String) :
    ((transactPutAndReserve st booking cap ts).2).schedules = st.schedules
    ∧ ((transactPutAndReserve st booking cap ts).2).scheduleExceptions
        = st.scheduleExceptions := by
  unfold transactPutAndReserve applyReserve
  repeat' (first | exact ⟨rfl, rfl⟩ | split | dsimp only)

/-- Every mutating operation leaves the schedules and exceptions tables
untouched (they are only ever read). -/
theorem applyOp_catalog (gps : GpsFn) (st : Store) (op : StoreOp) :
    (applyOp gps st op).schedules = st.schedules
    ∧ (applyOp gps st op).scheduleExceptions = st.scheduleExceptions := by
  cases op with
  | createBooking t s u ty b ts =>
      simp only [applyOp]
      unfold bookingsCreate transactPutAndReserve applyReserve
      repeat' (first | exact ⟨rfl, rfl⟩ | split | dsimp only)
  | cancelBooking t b cs ts =>
      simp only [applyOp]
      unfold bookingsCancel
      repeat' (first | exact ⟨rfl, rfl⟩ | split | dsimp only)
  | eventBooking t s u b ts =>
      simp only [applyOp]
      unfold handleBookingRequested
      cases hsi : eventGetSessionInfo st t s with
      | none => exact ⟨rfl, rfl⟩
      | some info =>
          dsimp only
          split
          · exact ⟨rfl, rfl⟩
          · have hf := transact_frame st
              { tenantId := t, sessionId := s, bookingId := b, subjectId := u
                subjectType := "PROSPECT", status := "CONFIRMED", source := "agent"
                createdAt := ts, pk := t ++ "#" ++ s, gsi1pk := t ++ "#" ++ u } info.1 ts
            split <;> (rename_i heq; rw [heq] at hf; exact hf)
  | eventConsultation t s l b ts =>
      simp only [applyOp]
      unfold handleConsultationRequested
      cases hsi : eventGetSessionInfo st t s with
      | none => exact ⟨rfl, rfl⟩
      | some info =>
          dsimp only
          split
          · exact ⟨rfl, rfl⟩
          · have hf := transact_frame st
              { tenantId := t, sessionId := s, bookingId := b, subjectId := l
                subjectType := "LEAD", status := "CONFIRMED", source := "agent"
                createdAt := ts, pk := t ++ "#" ++ s, gsi1pk := t ++ "#" ++ l } info.1 ts
            split <;> (rename_i heq; rw [heq] at hf; exact hf)
  | checkIn t cs b c n ts =>
      simp only [applyOp]
      unfold attendanceCreate
      repeat' (first | exact ⟨rfl, rfl⟩ | split | dsimp only)
  | adminOverride t s b stt ts =>
      simp only [applyOp]
      unfold attendanceUpdate
      repeat' (first | exact ⟨rfl, rfl⟩ | split | dsimp only)

/-- The attendance endpoints never touch the summaries table. -/
theorem attendanceOps_summaries (gps : GpsFn) (st : Store) :
    (∀ t cs b c n ts,
       ((attendanceCreate gps st t cs b c n ts).2).sessionSummaries = st.sessionSummaries)
    ∧ (∀ t s b stt ts,
       ((attendanceUpdate st t s b stt ts).2).sessionSummaries = st.sessionSummaries) := by
  constructor
  · intro t cs b c n ts
    unfold attendanceCreate
    repeat' (first | rfl | split | dsimp only)
  · intro t s b stt ts
    unfold attendanceUpdate
    repeat' (first | rfl | split | dsimp only)

end KxSched

namespace KxSched

/-- The capacity the event worker resolves agrees with the bookings
service's resolution whenever the worker resolves the session at all. -/
theorem eventGetSessionInfo_capacity (st : Store) (t s : String)
    (info : Option Nat × Session) (h : eventGetSessionInfo st t s = some info) :
    bookingsGetSessionInfo st t s = some info.1 := by
  simp only [eventGetSessionInfo] at h
  simp only [bookingsGetSessionInfo]
  cases hs : getScheduleRow st t (parseSessionId s).1 with
  | none => rw [hs] at h; exact absurd h (by simp)
  | some schedule =>
      rw [hs] at h
      dsimp only at h ⊢
      cases he : getExceptionRow st t (parseSessionId s).1 (parseSessionId s).2 with
      | none =>
          rw [he] at h
          simp only [Option.map_none'] at h
          rw [if_neg (by simp)] at h
          cases hd : parseDateYmd (parseSessionId s).2 with
          | none => rw [hd] at h; exact absurd h (by simp)
          | some t0 =>
              rw [hd] at h
              dsimp only at h
              split at h
              · exact absurd h (by simp)
              · obtain rfl := ((Option.some.injEq _ _).mp h).symm
                rfl
      | some e =>
          rw [he] at h
          dsimp only at h ⊢
          by_cases hc : e.type = "CANCELLED"
          · rw [if_pos (by simp [hc])] at h
            exact absurd h (by simp)
          · rw [if_neg (by simp [hc])] at h
            rw [if_neg (by simpa using hc)]
            cases hd : parseDateYmd (parseSessionId s).2 with
            | none => rw [hd] at h; exact absurd h (by simp)
            | some t0 =>
                rw [hd] at h
                dsimp only at h
                split at h
                · exact absurd h (by simp)
                · obtain rfl := ((Option.some.injEq _ _).mp h).symm
                  rfl

end KxSched

namespace KxSched

theorem getSummaryRow_spec (st : Store) (t s : String) (r : SummaryRow)
    (h : getSummaryRow st t s = some r) : r.tenantId = t ∧ r.sessionId = s := by
  unfold getSummaryRow at h
  have := List.find?_some h
  simpa using this

theorem summaryCount_congr (st st' : Store) (t s : String)
    (hss : st'.sessionSummaries = st.sessionSummaries) :
    summaryCount st' t s = summaryCount st t s := by
  unfold summaryCount getSummaryRow
  rw [hss]

theorem summaryCount_le_applyOp (gps : GpsFn) (st : Store) (op : StoreOp) (t s : String)
    (C : Nat) (hres : bookingsGetSessionInfo st t s = some (some C)) (hC : 1 ≤ C)
    (h : summaryCount st t s ≤ C) :
    summaryCount (applyOp gps st op) t s ≤ C := by
  cases op with
  | createBooking t' s' u ty b ts =>
      simp only [applyOp]
      unfold bookingsCreate
      cases hsi : bookingsGetSessionInfo st t' s' with
      | none => exact h
      | some cap =>
          dsimp only
          split
          · exact h
          · refine summaryCount_transact_le st _ cap ts t s C hC ?_ h
            intro hkey
            have hk1 : t' = t := hkey.1
            have hk2 : s' = s := hkey.2
            rw [hk1, hk2] at hsi
            have := hsi.symm.trans hres
            exact (Option.some.injEq _ _).mp this
  | cancelBooking t' b cs ts =>
      simp only [applyOp]
      unfold bookingsCancel
      cases hfb : findBookingById st t' b with
      | none => exact h
      | some booking =>
          dsimp only
          split
          · exact h
          · split
            · exact h
            · cases hrow : getSummaryRow st t' booking.sessionId with
              | none => exact h
              | some row =>
                  dsimp only
                  split
                  case isTrue hgt =>
                      rw [summaryCount_of_upsert _ st.sessionSummaries _ t s rfl]
                      by_cases hk : row.tenantId = t ∧ row.sessionId = s
                      · rw [if_pos hk]
                        have hcount : summaryCount st t s = row.bookedCount := by
                          obtain ⟨sp1, sp2⟩ := getSummaryRow_spec st t' booking.sessionId row hrow
                          have hts : getSummaryRow st t s = some row := by
                            rw [← hk.1, ← hk.2, sp1, sp2]
                            exact hrow
                          unfold summaryCount
                          rw [hts]
                          rfl
                        have hle : row.bookedCount ≤ C := hcount ▸ h
                        dsimp only
                        omega
                      · rw [if_neg hk]
                        exact h
                  case isFalse => exact h
  | eventBooking t' s' u b ts =>
      simp only [applyOp]
      unfold handleBookingRequested
      cases hsi : eventGetSessionInfo st t' s' with
      | none => exact h
      | some info =>
          dsimp only
          split
          · exact h
          · have hstep := summaryCount_transact_le st
              { tenantId := t', sessionId := s', bookingId := b, subjectId := u
                subjectType := "PROSPECT", status := "CONFIRMED", source := "agent"
                createdAt := ts, pk := t' ++ "#" ++ s', gsi1pk := t' ++ "#" ++ u }
              info.1 ts t s C hC ?_ h
            · split <;> (rename_i heq; rw [heq] at hstep; exact hstep)
            · intro hkey
              have hk1 : t' = t := hkey.1
              have hk2 : s' = s := hkey.2
              rw [hk1, hk2] at hsi
              have := (eventGetSessionInfo_capacity st t s info hsi).symm.trans hres
              exact (Option.some.injEq _ _).mp this
  | eventConsultation t' s' l b ts =>
      simp only [applyOp]
      unfold handleConsultationRequested
      cases hsi : eventGetSessionInfo st t' s' with
      | none => exact h
      | some info =>
          dsimp only
          split
          · exact h
          · have hstep := summaryCount_transact_le st
              { tenantId := t', sessionId := s', bookingId := b, subjectId := l
                subjectType := "LEAD", status := "CONFIRMED", source := "agent"
                createdAt := ts, pk := t' ++ "#" ++ s', gsi1pk := t' ++ "#" ++ l }
              info.1 ts t s C hC ?_ h
            · split <;> (rename_i heq; rw [heq] at hstep; exact hstep)
            · intro hkey
              have hk1 : t' = t := hkey.1
              have hk2 : s' = s := hkey.2
              rw [hk1, hk2] at hsi
              have := (eventGetSessionInfo_capacity st t s info hsi).symm.trans hres
              exact (Option.some.injEq _ _).mp this
  | checkIn t' cs b c n ts =>
      simp only [applyOp]
      rw [summaryCount_congr st _ t s ((attendanceOps_summaries gps st).1 t' cs b c n ts)]
      exact h
  | adminOverride t' s' b stt ts =>
      simp only [applyOp]
      rw [summaryCount_congr st _ t s ((attendanceOps_summaries gps st).2 t' s' b stt ts)]
      exact h

end KxSched

namespace KxSched

/-- Claim C1 (amended): for any session whose resolved capacity is `C` with
`1 ≤ C`, if the stored `bookedCount` is at most `C`, then after any sequence
of booking, cancellation, event-driven and attendance operations it is still
at most `C`.  The claim as frozen also asserts the bound for `C = 0`, where
it fails: the reserve condition `attribute_not_exists(bookedCount) OR
bookedCount < :capacity` admits the first booking of an empty summary. -/
theorem c1_amended (gps : GpsFn) (ops : List StoreOp) (st0 : Store) (t s : String) (C : Nat)
    (hres : bookingsGetSessionInfo st0 t s = some (some C)) (hC : 1 ≤ C)
    (hinit : summaryCount st0 t s ≤ C) :
    summaryCount (applyOps gps st0 ops) t s ≤ C := by
  induction ops generalizing st0 with
  | nil => exact hinit
  | cons op rest ih =>
      have hcat := applyOp_catalog gps st0 op
      have hres2 : bookingsGetSessionInfo (applyOp gps st0 op) t s = some (some C) := by
        have hsame : bookingsGetSessionInfo (applyOp gps st0 op) t s
            = bookingsGetSessionInfo st0 t s := by
          unfold bookingsGetSessionInfo getScheduleRow getExceptionRow
          rw [hcat.1, hcat.2]
        rw [hsame, hres]
      exact ih (applyOp gps st0 op) hres2
        (summaryCount_le_applyOp gps st0 op t s C hres hC hinit)

end KxSched

namespace KxSched

theorem mem_upsertAttendance {rows : List AttendanceRow} {row x : AttendanceRow}
    (h : x ∈ upsertAttendance rows row) : x = row ∨ x ∈ rows := by
  unfold upsertAttendance at h
  rcases List.mem_cons.mp h with h | h
  · exact Or.inl h
  · exact Or.inr (List.mem_filter.mp h).1

theorem findBookingById_spec {st : Store} {t bk : String} {b : BookingRow}
    (h : findBookingById st t bk = some b) :
    b ∈ st.bookings ∧ b.tenantId = t ∧ b.bookingId = bk := by
  unfold findBookingById at h
  obtain ⟨ys, hys⟩ := List.head?_eq_some_iff.mp h
  have hb : b ∈ st.bookings.filter (fun x => x.tenantId == t && x.bookingId == bk) := by
    rw [hys]
    exact List.mem_cons_self _ _
  obtain ⟨hmem, hp⟩ := List.mem_filter.mp hb
  simp only [Bool.and_eq_true, beq_iff_eq] at hp
  exact ⟨hmem, hp.1, hp.2⟩

theorem attendanceIntegrity_transfer {st st' : Store}
    (hatt : st'.attendance = st.attendance)
    (hbk : ∀ b0 ∈ st.bookings, ∃ b1 ∈ st'.bookings,
      b1.tenantId = b0.tenantId ∧ b1.sessionId = b0.sessionId ∧ b1.bookingId = b0.bookingId)
    (h : attendanceIntegrity st) : attendanceIntegrity st' := by
  intro r hr
  rw [hatt] at hr
  obtain ⟨b, hbmem, h1, h2, h3⟩ := h r hr
  obtain ⟨b1, hb1, e1, e2, e3⟩ := hbk b hbmem
  exact ⟨b1, hb1, e1.trans h1, e3.trans h2, fun hm => e2.trans (h3 hm)⟩

theorem attendanceIntegrity_upsert {st st' : Store} {rec : AttendanceRow} {booking : BookingRow}
    (hatt : st'.attendance = upsertAttendance st.attendance rec)
    (hbks : st'.bookings = st.bookings)
    (hmem : booking ∈ st.bookings)
    (h1 : booking.tenantId = rec.tenantId) (h2 : booking.bookingId = rec.bookingId)
    (h3 : rec.checkInMethod ≠ "OVERRIDE" → booking.sessionId = rec.sessionId)
    (h : attendanceIntegrity st) : attendanceIntegrity st' := by
  intro r hr
  rw [hatt] at hr
  rcases mem_upsertAttendance hr with rfl | hr0
  · exact ⟨booking, hbks ▸ hmem, h1, h2, h3⟩
  · obtain ⟨b, hb, e1, e2, e3⟩ := h r hr0
    exact ⟨b, hbks ▸ hb, e1, e2, e3⟩

theorem transact_keeps (st : Store) (booking : BookingRow) (cap : Option Nat) (ts : String) :
    ((transactPutAndReserve st booking cap ts).2).attendance = st.attendance
    ∧ ∀ b0 ∈ st.bookings, b0 ∈ ((transactPutAndReserve st booking cap ts).2).bookings := by
  unfold transactPutAndReserve applyReserve
  repeat' (first
    | exact ⟨rfl, fun b0 hb0 => List.mem_append_left _ hb0⟩
    | exact ⟨rfl, fun b0 hb0 => hb0⟩
    | split
    | dsimp only)

theorem bookingsCreate_keeps (st : Store) (t s u ty b ts : String) :
    ((bookingsCreate st t s u ty b ts).2).attendance = st.attendance
    ∧ ∀ b0 ∈ st.bookings, b0 ∈ ((bookingsCreate st t s u ty b ts).2).bookings := by
  unfold bookingsCreate
  cases hsi : bookingsGetSessionInfo st t s with
  | none => exact ⟨rfl, fun b0 hb0 => hb0⟩
  | some cap =>
      dsimp only
      split
      · exact ⟨rfl, fun b0 hb0 => hb0⟩
      · exact transact_keeps st _ cap ts

theorem eventBooking_keeps (st : Store) (t s u b ts : String) :
    ((handleBookingRequested st t s u b ts).2).attendance = st.attendance
    ∧ ∀ b0 ∈ st.bookings, b0 ∈ ((handleBookingRequested st t s u b ts).2).bookings := by
  unfold handleBookingRequested
  cases hsi : eventGetSessionInfo st t s with
  | none => exact ⟨rfl, fun b0 hb0 => hb0⟩
  | some info =>
      dsimp only
      split
      · exact ⟨rfl, fun b0 hb0 => hb0⟩
      · have hk := transact_keeps st
          { tenantId := t, sessionId := s, bookingId := b, subjectId := u
            subjectType := "PROSPECT", status := "CONFIRMED", source := "agent"
            createdAt := ts, pk := t ++ "#" ++ s, gsi1pk := t ++ "#" ++ u } info.1 ts
        split <;> (rename_i heq; rw [heq] at hk; exact hk)

theorem eventConsultation_keeps (st : Store) (t s l b ts : String) :
    ((handleConsultationRequested st t s l b ts).2).attendance = st.attendance
    ∧ ∀ b0 ∈ st.bookings, b0 ∈ ((handleConsultationRequested st t s l b ts).2).bookings := by
  unfold handleConsultationRequested
  cases hsi : eventGetSessionInfo st t s with
  | none => exact ⟨rfl, fun b0 hb0 => hb0⟩
  | some info =>
      dsimp only
      split
      · exact ⟨rfl, fun b0 hb0 => hb0⟩
      · have hk := transact_keeps st
          { tenantId := t, sessionId := s, bookingId := b, subjectId := l
            subjectType := "LEAD", status := "CONFIRMED", source := "agent"
            createdAt := ts, pk := t ++ "#" ++ s, gsi1pk := t ++ "#" ++ l } info.1 ts
        split <;> (rename_i heq; rw [heq] at hk; exact hk)

theorem bookingsCancel_keeps (st : Store) (t b : String) (cs : Option String) (ts : String) :
    ((bookingsCancel st t b cs ts).2).attendance = st.attendance
    ∧ ∀ b0 ∈ st.bookings, ∃ b1 ∈ ((bookingsCancel st t b cs ts).2).bookings,
        b1.tenantId = b0.tenantId ∧ b1.sessionId = b0.sessionId
          ∧ b1.bookingId = b0.bookingId := by
  unfold bookingsCancel
  cases hfb : findBookingById st t b with
  | none => exact ⟨rfl, fun b0 hb0 => ⟨b0, hb0, rfl, rfl, rfl⟩⟩
  | some booking =>
      dsimp only
      split
      · exact ⟨rfl, fun b0 hb0 => ⟨b0, hb0, rfl, rfl, rfl⟩⟩
      · split
        · exact ⟨rfl, fun b0 hb0 => ⟨b0, hb0, rfl, rfl, rfl⟩⟩
        · cases hsr : getSummaryRow st t booking.sessionId with
          | none => exact ⟨rfl, fun b0 hb0 => ⟨b0, hb0, rfl, rfl, rfl⟩⟩
          | some row =>
              dsimp only
              split
              · refine ⟨rfl, fun b0 hb0 => ?_⟩
                refine ⟨_, List.mem_map_of_mem _ hb0, ?_, ?_, ?_⟩ <;>
                  (dsimp only; split <;> rfl)
              · exact ⟨rfl, fun b0 hb0 => ⟨b0, hb0, rfl, rfl, rfl⟩⟩

theorem attendanceCreate_shape (gps : GpsFn) (st : Store) (t : String)
    (cs : Option String) (b : String) (c : Option (Int × Int)) (n : Int) (ts : String) :
    ((attendanceCreate gps st t cs b c n ts).2 = st)
    ∨ ∃ booking rec, findBookingById st t b = some booking
        ∧ (attendanceCreate gps st t cs b c n ts).2
            = { st with attendance := upsertAttendance st.attendance rec }
        ∧ rec.tenantId = t ∧ rec.bookingId = b ∧ rec.sessionId = booking.sessionId := by
  unfold attendanceCreate
  cases hfb : findBookingById st t b with
  | none => exact Or.inl rfl
  | some booking =>
      repeat' (first
        | exact Or.inl rfl
        | exact Or.inr ⟨booking, _, rfl, rfl, rfl, rfl, rfl⟩
        | dsimp only
        | split)

theorem attendanceUpdate_shape (st : Store) (t s b stt ts : String) :
    ((attendanceUpdate st t s b stt ts).2 = st)
    ∨ ∃ booking rec, findBookingById st t b = some booking
        ∧ (attendanceUpdate st t s b stt ts).2
            = { st with attendance := upsertAttendance st.attendance rec }
        ∧ rec.tenantId = t ∧ rec.bookingId = b ∧ rec.checkInMethod = "OVERRIDE" := by
  unfold attendanceUpdate
  cases hfb : findBookingById st t b with
  | none =>
      repeat' (first | exact Or.inl rfl | dsimp only | split)
  | some booking =>
      repeat' (first
        | exact Or.inl rfl
        | exact Or.inr ⟨booking, _, rfl, rfl, rfl, rfl, rfl⟩
        | dsimp only
        | split)

theorem attendanceIntegrity_applyOp (gps : GpsFn) (st : Store) (op : StoreOp)
    (h : attendanceIntegrity st) : attendanceIntegrity (applyOp gps st op) := by
  cases op with
  | createBooking t s u ty b ts =>
      simp only [applyOp]
      have hk := bookingsCreate_keeps st t s u ty b ts
      exact attendanceIntegrity_transfer hk.1
        (fun b0 hb0 => ⟨b0, hk.2 b0 hb0, rfl, rfl, rfl⟩) h
  | cancelBooking t b cs ts =>
      simp only [applyOp]
      have hk := bookingsCancel_keeps st t b cs ts
      exact attendanceIntegrity_transfer hk.1 hk.2 h
  | eventBooking t s u b ts =>
      simp only [applyOp]
      have hk := eventBooking_keeps st t s u b ts
      exact attendanceIntegrity_transfer hk.1
        (fun b0 hb0 => ⟨b0, hk.2 b0 hb0, rfl, rfl, rfl⟩) h
  | eventConsultation t s l b ts =>
      simp only [applyOp]
      have hk := eventConsultation_keeps st t s l b ts
      exact attendanceIntegrity_transfer hk.1
        (fun b0 hb0 => ⟨b0, hk.2 b0 hb0, rfl, rfl, rfl⟩) h
  | checkIn t cs b c n ts =>
      simp only [applyOp]
      rcases attendanceCreate_shape gps st t cs b c n ts with heq
        | ⟨booking, rec, hfb, hst, h1, h2, h3⟩
      · rw [heq]; exact h
      · obtain ⟨hbmem, hbt, hbb⟩ := findBookingById_spec hfb
        have hatt : ((attendanceCreate gps st t cs b c n ts).2).attendance
            = upsertAttendance st.attendance rec := by rw [hst]
        have hbks : ((attendanceCreate gps st t cs b c n ts).2).bookings = st.bookings := by
          rw [hst]
        exact attendanceIntegrity_upsert hatt hbks hbmem (hbt.trans h1.symm)
          (hbb.trans h2.symm) (fun _ => h3.symm) h
  | adminOverride t s b stt ts =>
      simp only [applyOp]
      rcases attendanceUpdate_shape st t s b stt ts with heq
        | ⟨booking, rec, hfb, hst, h1, h2, h3⟩
      · rw [heq]; exact h
      · obtain ⟨hbmem, hbt, hbb⟩ := findBookingById_spec hfb
        have hatt : ((attendanceUpdate st t s b stt ts).2).attendance
            = upsertAttendance st.attendance rec := by rw [hst]
        have hbks : ((attendanceUpdate st t s b stt ts).2).bookings = st.bookings := by
          rw [hst]
        exact attendanceIntegrity_upsert hatt hbks hbmem (hbt.trans h1.symm)
          (hbb.trans h2.symm) (fun hm => absurd h3 hm) h

/-- Claim C9 (amended): every attendance record points at a booking with the
same tenantId and bookingId, and every record not written by an admin
override (checkInMethod ≠ OVERRIDE) also carries that booking's sessionId;
this referential invariant is preserved by every operation sequence.  The
frozen claim's full (tenantId, sessionId, bookingId) match fails for admin
overrides, which store the request body's sessionId. -/
theorem c9_amended (gps : GpsFn) (ops : List StoreOp) (st0 : Store)
    (h : attendanceIntegrity st0) : attendanceIntegrity (applyOps gps st0 ops) := by
  induction ops generalizing st0 with
  | nil => exact h
  | cons op rest ih => exact ih (applyOp gps st0 op) (attendanceIntegrity_applyOp gps st0 op h)

/-- Claim C9, witness: the invariant holds of the concrete store and is
preserved across a concrete admin override. -/
theorem c9_amended_witness :
    attendanceIntegrity c9Store ∧
    attendanceIntegrity (applyOps gpsAlways c9Store
      [.adminOverride "t1" "sched_b#2025-01-06" "bk1" "PRESENT" "ts2"]) :=
  ⟨by unfold attendanceIntegrity; decide, c9_amended gpsAlways
    [.adminOverride "t1" "sched_b#2025-01-06" "bk1" "PRESENT" "ts2"] c9Store
    (by unfold attendanceIntegrity; decide)⟩

end KxSched

namespace KxSched

theorem jsonGet_filterOut_ne (o : JsonObj) (k k' : String) (h : k' ≠ k) :
    jsonGet (o.filter (fun kv => !(kv.1 == k))) k' = jsonGet o k' := by
  unfold jsonGet
  rw [find?_filter_of_imp o (fun kv => kv.1 == k') (fun kv => !(kv.1 == k))
    (fun x hx => by
      have hx' : x.1 = k' := by simpa using hx
      simp [hx', h])]

theorem jsonGet_jsonSet_self (o : JsonObj) (k v : String) :
    jsonGet (jsonSet o k v) k = some v := by
  unfold jsonSet jsonSpread jsonGet
  rw [List.find?_append]
  have h1 : (o.filter (fun kv => !([(k, v)].any (fun kv2 => kv2.1 == kv.1)))).find?
      (fun kv => kv.1 == k) = none := by
    rw [List.find?_eq_none]
    intro x hx
    have h2 := (List.mem_filter.mp hx).2
    simp only [List.any_cons, List.any_nil, Bool.or_false, Bool.not_eq_true',
      beq_eq_false_iff_ne] at h2
    simp only [beq_iff_eq]
    exact fun hh => h2 hh.symm
  rw [h1, Option.none_or, List.find?_cons_of_pos _ (by simp)]
  rfl

theorem jsonGet_jsonSet_ne (o : JsonObj) (k v k' : String) (h : k' ≠ k) :
    jsonGet (jsonSet o k v) k' = jsonGet o k' := by
  unfold jsonSet jsonSpread jsonGet
  rw [List.find?_append]
  have h1 : List.find? (fun kv => kv.1 == k') [(k, v)] = none := by
    rw [List.find?_eq_none]
    intro x hx
    have hx' : x = (k, v) := by simpa using hx
    subst hx'
    simp only [beq_iff_eq]
    exact fun hh => h hh.symm
  rw [h1, Option.or_none,
    find?_filter_of_imp o (fun kv => kv.1 == k')
      (fun kv => !([(k, v)].any (fun kv2 => kv2.1 == kv.1)))
      (fun x hx => by
        have hx' : x.1 = k' := by simpa using hx
        simp only [hx', List.any_cons, List.any_nil, Bool.or_false, Bool.not_eq_true',
          beq_eq_false_iff_ne]
        exact fun hh => h hh.symm)]

theorem jsonGet_jsonForce_self (o cur : JsonObj) (k : String) :
    jsonGet (jsonForce o cur k) k = jsonGet cur k := by
  unfold jsonForce
  cases hc : jsonGet cur k with
  | some v => exact jsonGet_jsonSet_self o k v
  | none =>
      have h1 : (o.filter (fun kv => !(kv.1 == k))).find? (fun kv => kv.1 == k) = none := by
        rw [List.find?_eq_none]
        intro x hx
        have h2 := (List.mem_filter.mp hx).2
        simpa using h2
      unfold jsonGet
      rw [h1]
      rfl

theorem jsonGet_jsonForce_ne (o cur : JsonObj) (k k' : String) (h : k' ≠ k) :
    jsonGet (jsonForce o cur k) k' = jsonGet o k' := by
  unfold jsonForce
  cases hc : jsonGet cur k with
  | some v => exact jsonGet_jsonSet_ne o k v k' h
  | none => exact jsonGet_filterOut_ne o k k' h

theorem programsUpdatedItem_protected (current body : JsonObj) (nowTs : String) :
    jsonGet (programsUpdatedItem current body nowTs) ("tenantId")
        = jsonGet current ("tenantId")
    ∧ jsonGet (programsUpdatedItem current body nowTs) ("programId")
        = jsonGet current ("programId")
    ∧ jsonGet (programsUpdatedItem current body nowTs) ("createdAt")
        = jsonGet current ("createdAt")
    ∧ jsonGet (programsUpdatedItem current body nowTs) ("updatedAt") = some nowTs := by
  simp only [programsUpdatedItem]
  refine ⟨?_, ?_, ?_, ?_⟩
  · rw [jsonGet_jsonSet_ne _ _ _ _ (by decide), jsonGet_jsonForce_ne _ _ _ _ (by decide),
        jsonGet_jsonForce_ne _ _ _ _ (by decide), jsonGet_jsonForce_self]
  · rw [jsonGet_jsonSet_ne _ _ _ _ (by decide), jsonGet_jsonForce_ne _ _ _ _ (by decide),
        jsonGet_jsonForce_self]
  · rw [jsonGet_jsonSet_ne _ _ _ _ (by decide), jsonGet_jsonForce_self]
  · exact jsonGet_jsonSet_self _ _ _

theorem locationsUpdatedItem_protected (current body : JsonObj) (nowTs : String) :
    jsonGet (locationsUpdatedItem current body nowTs) ("tenantId")
        = jsonGet current ("tenantId")
    ∧ jsonGet (locationsUpdatedItem current body nowTs) ("locationId")
        = jsonGet current ("locationId")
    ∧ jsonGet (locationsUpdatedItem current body nowTs) ("createdAt")
        = jsonGet current ("createdAt")
    ∧ jsonGet (locationsUpdatedItem current body nowTs) ("updatedAt") = some nowTs := by
  simp only [locationsUpdatedItem]
  refine ⟨?_, ?_, ?_, ?_⟩
  · rw [jsonGet_jsonSet_ne _ _ _ _ (by decide), jsonGet_jsonForce_ne _ _ _ _ (by decide),
        jsonGet_jsonForce_ne _ _ _ _ (by decide), jsonGet_jsonForce_self]
  · rw [jsonGet_jsonSet_ne _ _ _ _ (by decide), jsonGet_jsonForce_ne _ _ _ _ (by decide),
        jsonGet_jsonForce_self]
  · rw [jsonGet_jsonSet_ne _ _ _ _ (by decide), jsonGet_jsonForce_self]
  · exact jsonGet_jsonSet_self _ _ _

theorem schedulesUpdatedItem_protected (current body : JsonObj) (ph : Option String)
    (tid nowTs : String) :
    jsonGet (schedulesUpdatedItem current body ph tid nowTs) ("tenantId")
        = jsonGet current ("tenantId")
    ∧ jsonGet (schedulesUpdatedItem current body ph tid nowTs) ("scheduleId")
        = jsonGet current ("scheduleId")
    ∧ jsonGet (schedulesUpdatedItem current body ph tid nowTs) ("createdAt")
        = jsonGet current ("createdAt")
    ∧ jsonGet (schedulesUpdatedItem current body ph tid nowTs) ("updatedAt")
        = some nowTs := by
  simp only [schedulesUpdatedItem]
  cases ph with
  | none =>
      refine ⟨?_, ?_, ?_, ?_⟩
      · rw [jsonGet_jsonSet_ne _ _ _ _ (by decide), jsonGet_jsonForce_ne _ _ _ _ (by decide),
            jsonGet_jsonForce_ne _ _ _ _ (by decide), jsonGet_jsonForce_self]
      · rw [jsonGet_jsonSet_ne _ _ _ _ (by decide), jsonGet_jsonForce_ne _ _ _ _ (by decide),
            jsonGet_jsonForce_self]
      · rw [jsonGet_jsonSet_ne _ _ _ _ (by decide), jsonGet_jsonForce_self]
      · exact jsonGet_jsonSet_self _ _ _
  | some hId =>
      refine ⟨?_, ?_, ?_, ?_⟩
      · rw [jsonGet_jsonSet_ne _ _ _ _ (by decide), jsonGet_jsonSet_ne _ _ _ _ (by decide),
            jsonGet_jsonSet_ne _ _ _ _ (by decide), jsonGet_jsonForce_ne _ _ _ _ (by decide),
            jsonGet_jsonForce_ne _ _ _ _ (by decide), jsonGet_jsonForce_self]
      · rw [jsonGet_jsonSet_ne _ _ _ _ (by decide), jsonGet_jsonSet_ne _ _ _ _ (by decide),
            jsonGet_jsonSet_ne _ _ _ _ (by decide), jsonGet_jsonForce_ne _ _ _ _ (by decide),
            jsonGet_jsonForce_self]
      · rw [jsonGet_jsonSet_ne _ _ _ _ (by decide), jsonGet_jsonSet_ne _ _ _ _ (by decide),
            jsonGet_jsonSet_ne _ _ _ _ (by decide), jsonGet_jsonForce_self]
      · rw [jsonGet_jsonSet_ne _ _ _ _ (by decide), jsonGet_jsonSet_ne _ _ _ _ (by decide)]
        exact jsonGet_jsonSet_self _ _ _

theorem exceptionsUpdatedItem_protected (current body : JsonObj) (nowTs : String) :
    jsonGet (exceptionsUpdatedItem current body nowTs) ("tenantId")
        = jsonGet current ("tenantId")
    ∧ jsonGet (exceptionsUpdatedItem current body nowTs) ("scheduleId")
        = jsonGet current ("scheduleId")
    ∧ jsonGet (exceptionsUpdatedItem current body nowTs) ("occurrenceDate")
        = jsonGet current ("occurrenceDate")
    ∧ jsonGet (exceptionsUpdatedItem current body nowTs) ("createdAt")
        = jsonGet current ("createdAt")
    ∧ jsonGet (exceptionsUpdatedItem current body nowTs) ("updatedAt") = some nowTs := by
  simp only [exceptionsUpdatedItem]
  cases hty : (jsonGet body ("type")).orElse (fun _ => jsonGet current ("type")) with
  | some ty =>
      refine ⟨?_, ?_, ?_, ?_, ?_⟩
      · rw [jsonGet_jsonSet_ne _ _ _ _ (by decide), jsonGet_jsonSet_ne _ _ _ _ (by decide),
            jsonGet_jsonForce_ne _ _ _ _ (by decide), jsonGet_jsonForce_ne _ _ _ _ (by decide),
            jsonGet_jsonForce_ne _ _ _ _ (by decide), jsonGet_jsonForce_ne _ _ _ _ (by decide),
            jsonGet_jsonForce_self]
      · rw [jsonGet_jsonSet_ne _ _ _ _ (by decide), jsonGet_jsonSet_ne _ _ _ _ (by decide),
            jsonGet_jsonForce_ne _ _ _ _ (by decide), jsonGet_jsonForce_ne _ _ _ _ (by decide),
            jsonGet_jsonForce_ne _ _ _ _ (by decide), jsonGet_jsonForce_self]
      · rw [jsonGet_jsonSet_ne _ _ _ _ (by decide), jsonGet_jsonSet_ne _ _ _ _ (by decide),
            jsonGet_jsonForce_ne _ _ _ _ (by decide), jsonGet_jsonForce_ne _ _ _ _ (by decide),
            jsonGet_jsonForce_self]
      · rw [jsonGet_jsonSet_ne _ _ _ _ (by decide), jsonGet_jsonSet_ne _ _ _ _ (by decide),
            jsonGet_jsonForce_self]
      · exact jsonGet_jsonSet_self _ _ _
  | none =>
      refine ⟨?_, ?_, ?_, ?_, ?_⟩
      · rw [jsonGet_jsonSet_ne _ _ _ _ (by decide), jsonGet_filterOut_ne _ _ _ (by decide),
            jsonGet_jsonForce_ne _ _ _ _ (by decide), jsonGet_jsonForce_ne _ _ _ _ (by decide),
            jsonGet_jsonForce_ne _ _ _ _ (by decide), jsonGet_jsonForce_ne _ _ _ _ (by decide),
            jsonGet_jsonForce_self]
      · rw [jsonGet_jsonSet_ne _ _ _ _ (by decide), jsonGet_filterOut_ne _ _ _ (by decide),
            jsonGet_jsonForce_ne _ _ _ _ (by decide), jsonGet_jsonForce_ne _ _ _ _ (by decide),
            jsonGet_jsonForce_ne _ _ _ _ (by decide), jsonGet_jsonForce_self]
      · rw [jsonGet_jsonSet_ne _ _ _ _ (by decide), jsonGet_filterOut_ne _ _ _ (by decide),
            jsonGet_jsonForce_ne _ _ _ _ (by decide), jsonGet_jsonForce_ne _ _ _ _ (by decide),
            jsonGet_jsonForce_self]
      · rw [jsonGet_jsonSet_ne _ _ _ _ (by decide), jsonGet_filterOut_ne _ _ _ (by decide),
            jsonGet_jsonForce_self]
      · exact jsonGet_jsonSet_self _ _ _

/-- Claim C10: every PATCH service re-forces tenantId, the primary
identifier and createdAt from the stored item after the body spread, and
stamps updatedAt: a successful update returns an item agreeing with the
current item on every protected field, whatever the body supplied. -/
theorem c10_patch_protected :
    (∀ tb t body now item,
       programsUpdate tb t body now = .ok item →
       ∃ pid current, jsonGet body ("programId") = some pid
         ∧ tableGet tb (t, pid) = some current
         ∧ jsonGet item ("tenantId") = jsonGet current ("tenantId")
         ∧ jsonGet item ("programId") = jsonGet current ("programId")
         ∧ jsonGet item ("createdAt") = jsonGet current ("createdAt")
         ∧ jsonGet item ("updatedAt") = some now)
    ∧ (∀ tb t body coordsOk now item,
       locationsUpdate tb t body coordsOk now = .ok item →
       ∃ lid current, jsonGet body ("locationId") = some lid
         ∧ tableGet tb (t, lid) = some current
         ∧ jsonGet item ("tenantId") = jsonGet current ("tenantId")
         ∧ jsonGet item ("locationId") = jsonGet current ("locationId")
         ∧ jsonGet item ("createdAt") = jsonGet current ("createdAt")
         ∧ jsonGet item ("updatedAt") = some now)
    ∧ (∀ tb t body rr ph now item,
       schedulesUpdate tb t body rr ph now = .ok item →
       ∃ sid current, jsonGet body ("scheduleId") = some sid
         ∧ tableGet tb (t, sid) = some current
         ∧ jsonGet item ("tenantId") = jsonGet current ("tenantId")
         ∧ jsonGet item ("scheduleId") = jsonGet current ("scheduleId")
         ∧ jsonGet item ("createdAt") = jsonGet current ("createdAt")
         ∧ jsonGet item ("updatedAt") = some now)
    ∧ (∀ tb t body now item,
       exceptionsUpdate tb t body now = .ok item →
       ∃ sid od current, jsonGet body ("scheduleId") = some sid
         ∧ jsonGet body ("occurrenceDate") = some od
         ∧ tableGet tb (t ++ "#" ++ sid, od) = some current
         ∧ jsonGet item ("tenantId") = jsonGet current ("tenantId")
         ∧ jsonGet item ("scheduleId") = jsonGet current ("scheduleId")
         ∧ jsonGet item ("occurrenceDate") = jsonGet current ("occurrenceDate")
         ∧ jsonGet item ("createdAt") = jsonGet current ("createdAt")
         ∧ jsonGet item ("updatedAt") = some now) := by
  refine ⟨?_, ?_, ?_, ?_⟩
  · intro tb t body now item h
    unfold programsUpdate at h
    cases hpid : jsonGet body ("programId") with
    | none => rw [hpid] at h; exact PatchResult.noConfusion h
    | some pid =>
        rw [hpid] at h
        dsimp only at h
        cases hcur : tableGet tb (t, pid) with
        | none => rw [hcur] at h; exact PatchResult.noConfusion h
        | some current =>
            rw [hcur] at h
            dsimp only at h
            injection h with h
            subst h
            have hp := programsUpdatedItem_protected current body now
            exact ⟨pid, current, rfl, hcur, hp.1, hp.2.1, hp.2.2.1, hp.2.2.2⟩
  · intro tb t body coordsOk now item h
    unfold locationsUpdate at h
    cases hpid : jsonGet body ("locationId") with
    | none => rw [hpid] at h; exact PatchResult.noConfusion h
    | some lid =>
        rw [hpid] at h
        dsimp only at h
        cases hcur : tableGet tb (t, lid) with
        | none => rw [hcur] at h; exact PatchResult.noConfusion h
        | some current =>
            rw [hcur] at h
            dsimp only at h
            cases coordsOk with
            | false => exact PatchResult.noConfusion h
            | true =>
                injection h with h
                subst h
                have hp := locationsUpdatedItem_protected current body now
                exact ⟨lid, current, rfl, hcur, hp.1, hp.2.1, hp.2.2.1, hp.2.2.2⟩
  · intro tb t body rr ph now item h
    unfold schedulesUpdate at h
    cases hpid : jsonGet body ("scheduleId") with
    | none => rw [hpid] at h; exact PatchResult.noConfusion h
    | some sid =>
        rw [hpid] at h
        dsimp only at h
        cases hcur : tableGet tb (t, sid) with
        | none => rw [hcur] at h; exact PatchResult.noConfusion h
        | some current =>
            rw [hcur] at h
            dsimp only at h
            have hp := schedulesUpdatedItem_protected current body ph t now
            cases rr with
            | none =>
                dsimp only at h
                injection h with h
                subst h
                exact ⟨sid, current, rfl, hcur, hp.1, hp.2.1, hp.2.2.1, hp.2.2.2⟩
            | some r =>
                dsimp only at h
                split at h
                · exact PatchResult.noConfusion h
                · injection h with h
                  subst h
                  exact ⟨sid, current, rfl, hcur, hp.1, hp.2.1, hp.2.2.1, hp.2.2.2⟩
  · intro tb t body now item h
    unfold exceptionsUpdate at h
    cases hsid : jsonGet body ("scheduleId") with
    | none =>
        rw [hsid] at h
        dsimp only at h
        exact PatchResult.noConfusion h
    | some sid =>
        rw [hsid] at h
        cases hod : jsonGet body ("occurrenceDate") with
        | none =>
            rw [hod] at h
            dsimp only at h
            exact PatchResult.noConfusion h
        | some od =>
            rw [hod] at h
            dsimp only at h
            cases hcur : tableGet tb (t ++ "#" ++ sid, od) with
            | none => rw [hcur] at h; exact PatchResult.noConfusion h
            | some current =>
                rw [hcur] at h
                dsimp only at h
                injection h with h
                subst h
                have hp := exceptionsUpdatedItem_protected current body now
                exact ⟨sid, od, current, rfl, rfl, hcur,
                  hp.1, hp.2.1, hp.2.2.1, hp.2.2.2.1, hp.2.2.2.2⟩

end KxSched

namespace KxSched

/-- Claim C5: expanding the literal spec scenario (sched_x, Mondays,
Wednesdays and Fridays 07:00 America/New_York, query range 2025-01-06 to
2025-01-10) produces exactly the session ids sched_x#2025-01-06,
sched_x#2025-01-08 and sched_x#2025-01-10. -/
theorem c5_recurrence_expansion :
    (generateSessions schedX c5Opts).map (fun s => s.sessionId)
      = ["sched_x#2025-01-06", "sched_x#2025-01-08", "sched_x#2025-01-10"] := by
  decide

/-- Claim C1, counterexample: against a session with resolved capacity 0 and
no summary row, a booking create succeeds and leaves `bookedCount = 1 > 0`;
the conditional increment does not enforce the bound at capacity 0. -/
theorem c1_counterexample :
    bookingsGetSessionInfo c1CexStore "t1" "sched_a#2025-01-06" = some (some 0) ∧
    ¬ summaryCount
        ((bookingsCreate c1CexStore "t1" "sched_a#2025-01-06" "alice" "USER" "bk1" "ts1").2)
        "t1" "sched_a#2025-01-06" ≤ 0 := by
  decide

/-- Claim C3, counterexample: a WAITLIST booking of the same subject on the
same session does not block a new create: the request does not fail
AlreadyBooked and a second booking row is written, because the service only
rejects when the existing status is exactly CONFIRMED. -/
theorem c3_counterexample :
    (findExistingBooking c3CexStore "t1" "sched_u#2025-01-06" "alice").map
        (fun b => b.status) = some "WAITLIST" ∧
    (bookingsCreate c3CexStore "t1" "sched_u#2025-01-06" "alice" "USER" "bk1" "ts1").1
        ≠ .failed 409 ("Already have a confirmed booking for this session") ∧
    ((bookingsCreate c3CexStore "t1" "sched_u#2025-01-06" "alice" "USER" "bk1" "ts1").2).bookings.length
        = 2 := by
  decide

/-- Claim C4, counterexample: the Monday 19:00 America/New_York session
(absolute start 2025-01-14T00:00:00Z) is NOT returned for the query window
[2025-01-13, 2025-01-13] although its local date is 2025-01-13: the sessions
service queries the raw UTC range with no widening and no local-date
filter. -/
theorem c4_counterexample :
    sessionsQuery [mondaySchedule] [] [] {} ⟨2025, 1, 13⟩ ⟨2025, 1, 13⟩ = .ok [] ∧
    formatDateLocal (parseLocalDateTime mondaySchedule.start mondaySchedule.timezone)
        mondaySchedule.timezone = "2025-01-13" := by
  decide

/-- Claim C6, counterexample: an OVERRIDE exception whose overrideStart lies
on another local date (2025-02-01) yields a session whose id and date keep
the occurrence date 2025-01-06 while `formatDateLocal` of its start is
2025-02-01, so the claimed identity fails for overridden occurrences. -/
theorem c6_counterexample :
    (generateSessions c6Schedule c6Opts).map
        (fun s => (s.sessionId, s.date, formatDateLocal s.start americaNewYork2025))
      = [("sched_o#2025-01-06", "2025-01-06", "2025-02-01")] ∧
    ("2025-02-01" : String) ≠ "2025-01-06" := by
  decide

/-- Claim C7, counterexample: a DAILY rule carrying BYHOUR — a field outside
the claimed allowed set — is accepted by `validateRRule`, which never
inspects fields beyond freq, byweekday, bysetpos and bynweekday. -/
theorem c7_counterexample :
    validateRRule { freq := some RFreq.daily, byhour := some [9] } = RRuleVerdict.ok ∧
    ({ freq := some RFreq.daily, byhour := some [9] } : RRuleOptions).byhour ≠ none := by
  decide

/-- Claim C8, counterexample: a check-in 24 seconds after start (Δ > 0) is
recorded PRESENT, not LATE: the service rounds Δ to whole minutes before
comparing with 0, so only Δ ≥ 30 s is LATE. -/
theorem c8_counterexample :
    checkInTimeStatus 24000 0 = CheckInOutcome.recorded ("PRESENT") ∧
    (0 : Int) < 24000 - 0 ∧ (24000 - 0 : Int) ≤ 15 * 60000 := by
  decide

/-- Claim C9, counterexample: the admin override writes the attendance
record under the request body's sessionId, not the booking's, so a record is
stored whose (tenantId, sessionId, bookingId) triple matches no booking. -/
theorem c9_counterexample :
    (attendanceUpdate c9Store "t1" "sched_b#2025-01-06" "bk1" "PRESENT" "ts2").1
        = .checkedIn c9Record ∧
    ((attendanceUpdate c9Store "t1" "sched_b#2025-01-06" "bk1" "PRESENT" "ts2").2).attendance
        = [c9Record] ∧
    ¬ ∃ b ∈ ((attendanceUpdate c9Store "t1" "sched_b#2025-01-06" "bk1" "PRESENT" "ts2").2).bookings,
        b.tenantId = c9Record.tenantId ∧ b.sessionId = c9Record.sessionId ∧
        b.bookingId = c9Record.bookingId := by
  decide

end KxSched

namespace KxSched

theorem jsRound_pos_iff (d : Int) : 0 < jsRoundMinutes d ↔ 30000 ≤ d := by
  unfold jsRoundMinutes
  rw [Int.fdiv_eq_ediv _ (by norm_num)]
  omega

/-- Claim C7 (amended): `validateRRule` accepts a rule exactly when its FREQ
is DAILY, WEEKLY or MONTHLY, a WEEKLY rule carries BYDAY, and a MONTHLY rule
carries neither BYSETPOS nor an nth-weekday BYDAY form; no other field is
inspected, so rules with fields outside the profile are accepted. -/
theorem c7_amended (o : RRuleOptions) :
    validateRRule o = RRuleVerdict.ok ↔
      ((o.freq = some RFreq.daily ∨ o.freq = some RFreq.weekly ∨ o.freq = some RFreq.monthly)
       ∧ (o.freq = some RFreq.weekly → o.byweekday ≠ none)
       ∧ (o.freq = some RFreq.monthly → o.bysetpos = none ∧ o.bynweekday = none)) := by
  unfold validateRRule
  split_ifs with h1 h2 h3 <;> simp <;> tauto

/-- Claim C8 (amended): with the default 15/15-minute windows, a check-in
with Δ = checkInTime − start fails TooEarly when Δ < −15 min (reporting the
rounded magnitude), fails TooLate when Δ > 15 min, and otherwise records
LATE exactly when the JavaScript-rounded minute count is positive, i.e. when
Δ ≥ 30 seconds — not when Δ > 0. -/
theorem c8_amended (checkInMs startMs : Int) :
    (checkInMs - startMs < -(15 * 60000) →
       checkInTimeStatus checkInMs startMs
         = .rejected (.tooEarly ((jsRoundMinutes (checkInMs - startMs)).natAbs : Int) 15))
    ∧ (checkInMs - startMs > 15 * 60000 →
       checkInTimeStatus checkInMs startMs
         = .rejected (.tooLate (jsRoundMinutes (checkInMs - startMs)) 15))
    ∧ (-(15 * 60000) ≤ checkInMs - startMs → checkInMs - startMs ≤ 15 * 60000 →
       checkInTimeStatus checkInMs startMs
         = .recorded (if 30000 ≤ checkInMs - startMs then "LATE" else "PRESENT")) := by
  have hbridge := jsRound_pos_iff (checkInMs - startMs)
  refine ⟨fun h => ?_, fun h => ?_, fun h1 h2 => ?_⟩ <;>
    (unfold checkInTimeStatus validateCheckInTime
     simp only [Bool.and_eq_true, decide_eq_true_eq]
     split_ifs <;> first | rfl | (exfalso; omega))

end KxSched

namespace KxSched

/-- Claim C2: booking create is atomic.  Whenever the transaction cannot
commit — the booking key already exists or the capacity condition fails —
the request fails 409 "Session is at capacity" and the returned store is the
input store: no booking row is written and no counter is incremented. -/
theorem c2_create_atomic (st : Store)
    (tenantId sessionId subjectId subjectType bookingId ts : String)
    (capacity : Option Nat)
    (hsi : bookingsGetSessionInfo st tenantId sessionId = some capacity)
    (hdup : (findExistingBooking st tenantId sessionId subjectId).map (fun b => b.status)
              ≠ some "CONFIRMED")
    (hfail : bookingKeyExists st (tenantId ++ "#" ++ sessionId) bookingId = true
             ∨ reserveCondition capacity (getSummaryRow st tenantId sessionId) = false) :
    bookingsCreate st tenantId sessionId subjectId subjectType bookingId ts
      = (.failed 409 ("Session is at capacity"), st) := by
  unfold bookingsCreate
  rw [hsi]
  dsimp only
  rw [if_neg hdup]
  unfold transactPutAndReserve
  dsimp only
  have hcond : (!(bookingKeyExists st (tenantId ++ "#" ++ sessionId) bookingId)
      && reserveCondition capacity (getSummaryRow st tenantId sessionId)) = false := by
    rcases hfail with hf | hf <;> simp [hf]
  rw [hcond]
  rfl

/-- Claim C3 (amended): an existing CONFIRMED booking of the same subject on
the same session makes create fail AlreadyBooked (409) with the store
unchanged.  The frozen claim extends this to WAITLIST rows, where it fails:
the service compares the existing status with CONFIRMED only. -/
theorem c3_amended (st : Store)
    (tenantId sessionId subjectId subjectType bookingId ts : String)
    (capacity : Option Nat) (b : BookingRow)
    (hsi : bookingsGetSessionInfo st tenantId sessionId = some capacity)
    (hex : findExistingBooking st tenantId sessionId subjectId = some b)
    (hconf : b.status = "CONFIRMED") :
    bookingsCreate st tenantId sessionId subjectId subjectType bookingId ts
      = (.failed 409 ("Already have a confirmed booking for this session"), st) := by
  unfold bookingsCreate
  rw [hsi]
  dsimp only
  rw [if_pos]
  rw [hex]
  simp [hconf]

end KxSched

namespace KxSched

/-- Claim C4 (amended): the sessions service queries schedules over the raw
absolute range [startDateT00:00:00Z, endDateT23:59:59Z] — no widening, no
local-date filter — so a non-recurring schedule within the 90-day cap is
returned exactly when its absolute start lies in that raw range. -/
theorem c4_amended (s : Schedule) (d1 d2 : Ymd)
    (hnr : s.isRecurring = false)
    (hrange : queryRangeEnd d2 - queryRangeStart d1 ≤ 7776000) :
    sessionsQuery [s] [] [] {} d1 d2
      = .ok (if queryRangeStart d1 ≤ parseLocalDateTime s.start s.timezone
                ∧ parseLocalDateTime s.start s.timezone ≤ queryRangeEnd d2
             then [nonRecurringSession s] else []) := by
  have h90 : (decide (queryRangeEnd d2 - queryRangeStart d1 > 7776000)) = false :=
    decide_eq_false (by omega)
  simp only [sessionsQuery, h90, Bool.false_eq_true, if_false, generateSessions,
    naiveOccurrencesOf, hnr, List.flatMap_cons, List.flatMap_nil, List.filter_nil]
  by_cases hin : queryRangeStart d1 ≤ parseLocalDateTime s.start s.timezone
      ∧ parseLocalDateTime s.start s.timezone ≤ queryRangeEnd d2
  · have hc : (decide (queryRangeStart d1 ≤ parseLocalDateTime s.start s.timezone)
        && decide (parseLocalDateTime s.start s.timezone ≤ queryRangeEnd d2)) = true := by
      simp [hin.1, hin.2]
    rw [hc, if_pos hin]
    rfl
  · have hc : (decide (queryRangeStart d1 ≤ parseLocalDateTime s.start s.timezone)
        && decide (parseLocalDateTime s.start s.timezone ≤ queryRangeEnd d2)) = false := by
      rcases not_and_or.mp hin with h | h <;> simp [h]
    rw [hc, if_neg hin]
    rfl

end KxSched

namespace KxSched

/-- Claim C6 (amended): for every materialized occurrence whose date has no
OVERRIDE start exception and whose local offset is stable across the offset
subtraction (every unambiguous local time), the session's absolute start
formatted as a local date equals the session's date field and the sessionId
is scheduleId#date. -/
theorem c6_amended (schedule : Schedule) (o : GenOptions) (sess : Session) (naive : Int)
    (hmem : naive ∈ naiveOccurrencesOf schedule o)
    (hsess : sessionOfOccurrence schedule o.exceptions (durationSecondsOf schedule)
               o.summaries naive = some sess)
    (hnoov : noOverrideStart o.exceptions (formatInstantDateUTC naive) = true)
    (hstable : schedule.timezone.offAt (naive - schedule.timezone.offAt naive)
                 = schedule.timezone.offAt naive) :
    sess ∈ generateSessions schedule o
    ∧ formatDateLocal sess.start schedule.timezone = sess.date
    ∧ sess.sessionId = generateSessionId schedule.scheduleId sess.date := by
  refine ⟨List.mem_filterMap.mpr ⟨naive, hmem, hsess⟩, ?_⟩
  have hstart : sess.start = convertNaiveLocalToUtc naive schedule.timezone
      ∧ sess.date = formatInstantDateUTC naive
      ∧ sess.sessionId = generateSessionId schedule.scheduleId (formatInstantDateUTC naive) := by
    simp only [sessionOfOccurrence, noOverrideStart] at hsess hnoov
    cases hexc : exceptionFor o.exceptions (formatInstantDateUTC naive) with
    | none =>
        rw [hexc] at hsess
        split at hsess
        · exact absurd hsess (by simp)
        · obtain rfl := (Option.some.injEq _ _).mp hsess.symm
          simp
    | some e =>
        rw [hexc] at hsess hnoov
        split at hsess
        · exact absurd hsess (by simp)
        · obtain rfl := (Option.some.injEq _ _).mp hsess.symm
          by_cases hov : e.type = "OVERRIDE"
          · have hnone : e.overrideStart = none := by
              simp [hov] at hnoov
              exact hnoov
            simp [hov, hnone]
          · simp [hov]
  obtain ⟨h1, h2, h3⟩ := hstart
  refine ⟨?_, ?_⟩
  · rw [h1, h2]
    unfold formatDateLocal convertNaiveLocalToUtc
    rw [hstable, Int.sub_add_cancel]
  · rw [h3, h2]

end KxSched

namespace KxSched

/-- Claim C1, witness: the amended bound at a concrete store — two competing
creates, a cancel and an event-driven retry against a capacity-1 session. -/
theorem c1_amended_witness :
    summaryCount (applyOps gpsAlways c1WitStore c1WitnessOps) "t1" "sched_w#2025-01-06"
      ≤ 1 :=
  c1_amended gpsAlways c1WitnessOps c1WitStore "t1" "sched_w#2025-01-06" 1
    (by decide) (by decide) (by decide)

/-- Claim C2, witness: a create against the already-full capacity-1 session
fails 409 and returns the store unchanged. -/
theorem c2_create_atomic_witness :
    bookingsCreate c2Store "t1" "sched_c#2025-01-06" "zoe" "MEMBER" "bk9" "ts9"
      = (.failed 409 ("Session is at capacity"), c2Store) :=
  c2_create_atomic c2Store "t1" "sched_c#2025-01-06" "zoe" "MEMBER" "bk9" "ts9" (some 1)
    (by decide) (by decide) (Or.inr (by decide))

/-- Claim C3, witness: with a CONFIRMED booking of alice already stored, her
duplicate create fails AlreadyBooked with the store unchanged. -/
theorem c3_amended_witness :
    bookingsCreate c3WitStore "t1" "sched_u#2025-01-06" "alice" "MEMBER" "bk9" "ts9"
      = (.failed 409 ("Already have a confirmed booking for this session"), c3WitStore) :=
  c3_amended c3WitStore "t1" "sched_u#2025-01-06" "alice" "MEMBER" "bk9" "ts9" none
    { tenantId := "t1", sessionId := "sched_u#2025-01-06", bookingId := "bk0"
      subjectId := "alice", subjectType := "MEMBER", status := "CONFIRMED"
      source := "api", createdAt := "ts0"
      pk := "t1#sched_u#2025-01-06", gsi1pk := "t1#alice" }
    (by decide) (by decide) (by decide)

/-- Claim C4, witness: the amended characterization at the Monday 19:00
session and the query date 2025-01-14 — the date of its absolute start. -/
theorem c4_amended_witness :
    sessionsQuery [mondaySchedule] [] [] {} ⟨2025, 1, 14⟩ ⟨2025, 1, 14⟩
      = .ok (if queryRangeStart ⟨2025, 1, 14⟩
                  ≤ parseLocalDateTime mondaySchedule.start mondaySchedule.timezone
                ∧ parseLocalDateTime mondaySchedule.start mondaySchedule.timezone
                  ≤ queryRangeEnd ⟨2025, 1, 14⟩
             then [nonRecurringSession mondaySchedule] else []) :=
  c4_amended mondaySchedule ⟨2025, 1, 14⟩ ⟨2025, 1, 14⟩ (by decide) (by decide)

/-- Claim C6, witness: the date and id agreement at schedX's first
materialized occurrence (2025-01-06 07:00 America/New_York). -/
theorem c6_amended_witness :
    c6WitnessSession ∈ generateSessions schedX c5Opts
    ∧ formatDateLocal c6WitnessSession.start schedX.timezone = c6WitnessSession.date
    ∧ c6WitnessSession.sessionId
        = generateSessionId schedX.scheduleId c6WitnessSession.date :=
  c6_amended schedX c5Opts c6WitnessSession 1736146800
    (by decide) (by decide) (by decide) (by decide)

end KxSched
